import Mathlib

/-!
# mathday_backend: event store and event-creation workflow

A shallow embedding of `internal/repository/event.go` and
`internal/handler/event.go`.

* The `events` table is a list of rows in insertion order together with the
  AUTO_INCREMENT counter. A transaction holds the rows it has inserted until
  it is committed or rolled back; the counter is not transactional.
* Everything the Go code obtains from outside (the random bytes behind
  `uuid.New()`, the driver reporting a failure, the webhook answering, the
  environment variable) is an explicit argument.
* Go strings are Lean strings; Go `int` is `Int`; a Go slice is
  `Option (List α)` with `none` the nil slice.
* A column holds what the server makes of the text it is given. For DATE,
  TIME and character columns the embedding fixes what every MySQL server does
  with text in the common forms (`Server.date`, `Server.time`, `Server.chars`)
  and leaves the rest, like the comparison of `auth_code` under the column's
  collation (`Server.sameCode`), to the `Server` at hand. The driver hands DATE
  and TIME values to `Scan` as text, as it does unless the DSN sets
  `parseTime` (`config.MySQL()` is not among the sources).
* A JSON column holds a JSON document (MySQL parses the text on the way in and
  prints the document on the way out), so `json.Marshal` is modelled as a map
  from Go values to documents and `json.Unmarshal` as a decoder of documents.
* Two things that the SQL text leaves open are kept open: the order in which
  rows with equal ORDER BY keys are returned (`Engine`), and what
  `RowsAffected` counts after an UPDATE (`DB.clientFoundRows`).
-/

namespace Mathday

/-! ## JSON documents -/

/-- A JSON document. Numbers keep their literal text. -/
inductive Json where
  | null : Json
  | bool (b : Bool) : Json
  | num (lit : String) : Json
  | str (s : String) : Json
  | arr (xs : List Json) : Json
  | obj (members : List (String × Json)) : Json

/-- Go slice: `none` is the nil slice, `some xs` a slice with elements `xs`. -/
abbrev Slice (α : Type) := Option (List α)

/-- Elements of a slice, the nil slice having none. -/
def Slice.elems {α : Type} : Slice α → List α
  | none => []
  | some xs => xs

/-! ## strconv.Atoi -/

/-- The value of a decimal digit. -/
def digitValue (c : Char) : Option Nat :=
  if '0'.toNat ≤ c.toNat ∧ c.toNat ≤ '9'.toNat then some (c.toNat - '0'.toNat) else none

/-- The number written by a run of decimal digits, continuing from `acc`;
`none` at the first character that is not a digit. -/
def parseDigits : List Char → Nat → Option Nat
  | [], acc => some acc
  | c :: rest, acc =>
    match digitValue c with
    | none => none
    | some d => parseDigits rest (acc * 10 + d)

/-- `strconv.Atoi` on a 64-bit platform: an optional sign, then at least one
decimal digit and nothing else; a value outside the range of `int` is an
error too. `none` stands for the returned error. -/
def Atoi (s : String) : Option Int :=
  match s.toList with
  | [] => none
  | c :: rest =>
    if c = '-' then
      if rest.isEmpty then none
      else (parseDigits rest 0).bind fun n =>
        if n ≤ 2 ^ 63 then some (-(n : Int)) else none
    else if c = '+' then
      if rest.isEmpty then none
      else (parseDigits rest 0).bind fun n =>
        if n < 2 ^ 63 then some (n : Int) else none
    else (parseDigits (c :: rest) 0).bind fun n =>
      if n < 2 ^ 63 then some (n : Int) else none

/-! ## The database server -/

/-- A value of a DATE column. -/
structure Date where
  year : Nat
  month : Nat
  day : Nat
  deriving DecidableEq, Repr

/-- A value of a TIME column, in seconds; a negative value is a time before
zero. -/
structure Time where
  seconds : Int
  deriving DecidableEq, Repr

/-- The decimal digit of `n % 10`. -/
def digitChar (n : Nat) : Char :=
  Char.ofNat (48 + n % 10)

/-- The last two decimal digits of a number. -/
def twoDigits (n : Nat) : List Char :=
  [digitChar (n / 10), digitChar n]

/-- The last four decimal digits of a number. -/
def fourDigits (n : Nat) : List Char :=
  [digitChar (n / 1000), digitChar (n / 100), digitChar (n / 10), digitChar n]

/-- The text in which a DATE value reaches `Scan`: `YYYY-MM-DD`. -/
def Date.text (d : Date) : String :=
  String.mk (fourDigits d.year ++ '-' :: twoDigits d.month ++ '-' :: twoDigits d.day)

/-- The text in which a TIME value reaches `Scan`: `HH:MM:SS`, with a sign
when negative and with as many hour digits as needed from 100 hours on. -/
def Time.text (t : Time) : String :=
  String.mk ((if t.seconds < 0 then ['-'] else []) ++
    (if t.seconds.natAbs / 3600 < 100 then twoDigits (t.seconds.natAbs / 3600)
      else (toString (t.seconds.natAbs / 3600)).toList) ++
    ':' :: twoDigits (t.seconds.natAbs / 60 % 60) ++ ':' :: twoDigits (t.seconds.natAbs % 60))

/-- The order of DATE values: by year, then month, then day. -/
def Date.lt (a b : Date) : Prop :=
  a.year < b.year ∨ (a.year = b.year ∧ (a.month < b.month ∨ (a.month = b.month ∧ a.day < b.day)))

instance Date.lt.decidable (a b : Date) : Decidable (a.lt b) := by
  unfold Date.lt; infer_instance

/-- Leap years of the Gregorian calendar. -/
def leapYear (y : Nat) : Bool :=
  (y % 4 == 0 && y % 100 != 0) || y % 400 == 0

/-- The number of days of a month. -/
def daysInMonth (y m : Nat) : Nat :=
  if m = 2 then (if leapYear y then 29 else 28)
  else if m = 4 ∨ m = 6 ∨ m = 9 ∨ m = 11 then 30
  else 31

/-- A date written `YYYY-MM-DD` (year 1000 to 9999, a month, a day of that
month): the date it denotes; `none` for any other text. -/
def canonicalDate : List Char → Option Date
  | [y1, y2, y3, y4, s1, m1, m2, s2, d1, d2] =>
    if s1 = '-' ∧ s2 = '-' then
      match parseDigits [y1, y2, y3, y4] 0, parseDigits [m1, m2] 0, parseDigits [d1, d2] 0 with
      | some y, some m, some d =>
        if 1000 ≤ y ∧ 1 ≤ m ∧ m ≤ 12 ∧ 1 ≤ d ∧ d ≤ daysInMonth y m then some ⟨y, m, d⟩ else none
      | _, _, _ => none
    else none
  | _ => none

/-- A time written `HH:MM:SS` or `HH:MM` (two digits each, minutes and
seconds below 60), or `HHH:MM:SS` within the range of TIME (up to
`838:59:59`): the time it denotes, `HH:MM` standing for `HH:MM:00`; `none` for
any other text. -/
def canonicalTime : List Char → Option Time
  | [h1, h2, s1, m1, m2] =>
    if s1 = ':' then
      match parseDigits [h1, h2] 0, parseDigits [m1, m2] 0 with
      | some h, some m => if m ≤ 59 then some ⟨((h * 3600 + m * 60 : Nat) : Int)⟩ else none
      | _, _ => none
    else none
  | [h1, h2, s1, m1, m2, s2, c1, c2] =>
    if s1 = ':' ∧ s2 = ':' then
      match parseDigits [h1, h2] 0, parseDigits [m1, m2] 0, parseDigits [c1, c2] 0 with
      | some h, some m, some s =>
        if m ≤ 59 ∧ s ≤ 59 then some ⟨((h * 3600 + m * 60 + s : Nat) : Int)⟩ else none
      | _, _, _ => none
    else none
  | [h1, h2, h3, s1, m1, m2, s2, c1, c2] =>
    if s1 = ':' ∧ s2 = ':' then
      match parseDigits [h1, h2, h3] 0, parseDigits [m1, m2] 0, parseDigits [c1, c2] 0 with
      | some h, some m, some s =>
        if h ≤ 838 ∧ m ≤ 59 ∧ s ≤ 59 then some ⟨((h * 3600 + m * 60 + s : Nat) : Int)⟩
        else none
      | _, _, _ => none
    else none
  | _ => none

/-- What the embedding does not fix about the database server: its SQL mode,
the collation of `auth_code`, and what it does with texts outside the forms
treated below. The table is created without a character set or a collation
(`setupTestDB`), so these are whatever the server is configured with. -/
structure Server where
  /-- Strict SQL mode (the default): a value a column cannot hold is an error. -/
  strict : Bool
  /-- The collation of `auth_code` ignores the case of letters (the default). -/
  caseInsensitive : Bool
  /-- The DATE made of a text that is not of the form `YYYY-MM-DD`; `none`
  when the server refuses it. -/
  otherDate : String → Option Date
  /-- The TIME made of a text that is not of the form `HH:MM`, `HH:MM:SS` or
  `HHH:MM:SS`; `none` when the server refuses it. -/
  otherTime : String → Option Time
  /-- What a character column of the given capacity holds for a text that is
  too long or not plain ASCII; `none` when the server refuses it. -/
  otherChars : Nat → String → Option String
  /-- Whether the collation equates two texts that differ in more than the
  case of ASCII letters (accents, trailing spaces). -/
  otherEqual : String → String → Bool

/-- What a DATE column makes of an inserted text: a date written `YYYY-MM-DD`
is that date; in strict mode a text without any digit is refused
(`Incorrect date value`); the rest is up to the server. -/
def Server.date (sv : Server) (s : String) : Option Date :=
  match canonicalDate s.toList with
  | some d => some d
  | none =>
    if sv.strict && !s.toList.isEmpty && s.toList.all (fun c => (digitValue c).isNone) then none
    else sv.otherDate s

/-- What a TIME column makes of an inserted text: a time written `HH:MM:SS`,
`HH:MM` or `HHH:MM:SS` is that time; the rest is up to the server. -/
def Server.time (sv : Server) (s : String) : Option Time :=
  match canonicalTime s.toList with
  | some t => some t
  | none => sv.otherTime s

/-- What a VARCHAR or TEXT column of the given capacity makes of an inserted
text: plain ASCII that fits is held as it is; the rest is up to the server. -/
def Server.chars (sv : Server) (capacity : Nat) (s : String) : Option String :=
  if s.toList.length ≤ capacity ∧ s.toList.all (fun c => decide (c.toNat < 128)) = true then some s
  else sv.otherChars capacity s

/-- A nullable character column: a nil pointer is stored as NULL. -/
def Server.charsNull (sv : Server) (capacity : Nat) : Option String → Option (Option String)
  | none => some none
  | some s => (sv.chars capacity s).map some

/-- The comparison `auth_code = ?` of a stored code with a given one: equal
texts are equal; under a case-insensitive collation texts that differ only in
the case of ASCII letters are equal too; the rest is up to the collation. -/
def Server.sameCode (sv : Server) (stored given : String) : Bool :=
  stored == given ||
    (sv.caseInsensitive && stored.toList.map Char.toLower == given.toList.map Char.toLower) ||
    sv.otherEqual stored given

/-- The server of the examples: strict mode and a case-insensitive collation,
the settings of an installation left as it comes. The examples use texts in
the forms treated above only; for any other text this server refuses the
value and equates nothing more, which stands for no particular product. -/
def Server.defaults : Server :=
  { strict := true
    caseInsensitive := true
    otherDate := fun _ => none
    otherTime := fun _ => none
    otherChars := fun _ _ => none
    otherEqual := fun _ _ => false }

namespace repository

/-- Speaker record of `repository.Speaker`. -/
structure Speaker where
  Name : String
  Title : String
  Organization : String
  deriving DecidableEq, Repr

/-- Schedule slot of `repository.Schedule`. -/
structure Schedule where
  Time : String
  Title : String
  Speaker : String
  deriving DecidableEq, Repr

/-- One decoded event, `repository.Event`. -/
structure Event where
  ID : Int
  Title : String
  Organizer : String
  StartDate : String
  StartTime : String
  EndDate : String
  EndTime : String
  Email : String
  Prefecture : Option String
  EventType : Option String
  IsOnline : Bool
  IsOffline : Bool
  OfficialURL : Option String
  OnlineLectureURL : Option String
  Venue : Option String
  Target : Option String
  Capacity : Option String
  Description : Option String
  Tags : Slice String
  Speakers : Slice Speaker
  Schedule : Slice Schedule
  AuthCode : String
  IsAuthenticated : Bool
  deriving DecidableEq, Repr

/-- Parameters of an insert, `repository.CreateEventParams`. -/
structure CreateEventParams where
  Title : String
  Organizer : String
  StartDate : String
  StartTime : String
  EndDate : String
  EndTime : String
  Email : String
  Prefecture : Option String
  EventType : Option String
  IsOnline : Bool
  IsOffline : Bool
  OfficialURL : Option String
  OnlineLectureURL : Option String
  Venue : Option String
  Target : Option String
  Capacity : Option String
  Description : Option String
  Tags : Slice String
  Speakers : Slice Speaker
  Schedule : Slice Schedule
  deriving DecidableEq, Repr

/-- One row of the `events` table (schema of `setupTestDB`). The NOT NULL
columns and the BOOLEAN columns with a default hold a value; the others may be
NULL (`none`). The DATE and TIME columns hold values, not text. -/
structure Row where
  id : Int
  title : String
  organizer : String
  start_date : Date
  start_time : Time
  end_date : Date
  end_time : Time
  email : String
  prefecture : Option String
  event_type : Option String
  is_online : Bool
  is_offline : Bool
  official_url : Option String
  online_lecture_url : Option String
  venue : Option String
  target : Option String
  capacity : Option String
  description : Option String
  tags : Option Json
  speakers : Option Json
  schedule : Option Json
  auth_code : Option String
  is_authenticated : Bool

/-- The database behind `Repository.db`: the committed rows of `events` in
insertion order, the highest id the AUTO_INCREMENT counter has issued (0 for a
fresh table; the counter is not transactional), and the connection flag
`clientFoundRows` of the MySQL driver, which decides what `RowsAffected`
counts after an UPDATE: the rows matched by the WHERE clause when set, the
rows actually changed when not (the driver's default). The flag comes from
`config.MySQL()`, which is not part of the sources at hand. `server` is the
server the connection leads to. -/
structure DB where
  rows : List Row
  issued : Nat
  clientFoundRows : Bool
  server : Server

/-- An open `*sql.Tx`: the rows inserted under it, invisible to every other
reader until commit, and whether it has been committed or rolled back. -/
structure Tx where
  pending : List Row
  done : Bool

/-- What the driver reports for one round trip to the server. -/
inductive Wire where
  | ok : Wire
  | broken : Wire
  deriving DecidableEq, Repr

/-- The errors the repository returns, one per `fmt.Errorf` site that the
embedding can reach. -/
inductive RepoError where
  | beginFailed : RepoError
  | insertFailed : RepoError
  | queryFailed : RepoError
  | tagsUnmarshal : RepoError
  | speakersUnmarshal : RepoError
  | scheduleUnmarshal : RepoError
  | authUpdateFailed : RepoError
  | notFound : RepoError
  | getFailed : RepoError
  deriving DecidableEq, Repr

/-! ## encoding/json on the three collection columns -/

/-- Case-insensitive match of an object key against a (lower-case) field
name, as the decoder does when it looks a key up among the struct fields
(ASCII letters; the two non-ASCII letters Go also folds are not modelled). -/
def keyIs (k field : String) : Bool :=
  k.toList.map Char.toLower == field.toList

/-- Decoding one JSON value into a Go string that currently holds `cur`:
a JSON string is stored, `null` leaves the value as it is, anything else is an
UnmarshalTypeError. -/
def decodeString (cur : String) : Json → Option String
  | .str s => some s
  | .null => some cur
  | _ => none

/-- `json.Marshal(params.Tags)`. -/
def marshalTags : Slice String → Json
  | none => .null
  | some xs => .arr (xs.map Json.str)

/-- `json.Marshal` of one Speaker (field order of the struct, json tags). -/
def marshalSpeaker (s : Speaker) : Json :=
  .obj [("name", .str s.Name), ("title", .str s.Title), ("organization", .str s.Organization)]

/-- `json.Marshal(params.Speakers)`. -/
def marshalSpeakers : Slice Speaker → Json
  | none => .null
  | some xs => .arr (xs.map marshalSpeaker)

/-- `json.Marshal` of one Schedule slot. -/
def marshalSchedule (s : Schedule) : Json :=
  .obj [("time", .str s.Time), ("title", .str s.Title), ("speaker", .str s.Speaker)]

/-- `json.Marshal(params.Schedule)`. -/
def marshalSchedules : Slice Schedule → Json
  | none => .null
  | some xs => .arr (xs.map marshalSchedule)

/-- Decoding the members of a JSON object into a Speaker, in order; a key that
matches no field is skipped. -/
def decodeSpeakerMembers : List (String × Json) → Speaker → Option Speaker
  | [], acc => some acc
  | (k, v) :: rest, acc =>
    if keyIs k "name" then
      (decodeString acc.Name v).bind fun s => decodeSpeakerMembers rest { acc with Name := s }
    else if keyIs k "title" then
      (decodeString acc.Title v).bind fun s => decodeSpeakerMembers rest { acc with Title := s }
    else if keyIs k "organization" then
      (decodeString acc.Organization v).bind fun s =>
        decodeSpeakerMembers rest { acc with Organization := s }
    else decodeSpeakerMembers rest acc

/-- Decoding one array element into a fresh Speaker. -/
def decodeSpeaker : Json → Option Speaker
  | .obj ms => decodeSpeakerMembers ms ⟨"", "", ""⟩
  | .null => some ⟨"", "", ""⟩
  | _ => none

/-- Decoding the members of a JSON object into a Schedule slot. -/
def decodeScheduleMembers : List (String × Json) → Schedule → Option Schedule
  | [], acc => some acc
  | (k, v) :: rest, acc =>
    if keyIs k "time" then
      (decodeString acc.Time v).bind fun s => decodeScheduleMembers rest { acc with Time := s }
    else if keyIs k "title" then
      (decodeString acc.Title v).bind fun s => decodeScheduleMembers rest { acc with Title := s }
    else if keyIs k "speaker" then
      (decodeString acc.Speaker v).bind fun s =>
        decodeScheduleMembers rest { acc with Speaker := s }
    else decodeScheduleMembers rest acc

/-- Decoding one array element into a fresh Schedule slot. -/
def decodeSchedule : Json → Option Schedule
  | .obj ms => decodeScheduleMembers ms ⟨"", "", ""⟩
  | .null => some ⟨"", "", ""⟩
  | _ => none

/-- Decoding the elements of a JSON array one after the other; one element
that does not decode makes the whole call return an error. -/
def decodeElems {α : Type} (elem : Json → Option α) : List Json → Option (List α)
  | [] => some []
  | x :: rest =>
    match elem x, decodeElems elem rest with
    | some a, some as => some (a :: as)
    | _, _ => none

/-- `json.Unmarshal(col, &dst)` for a nil slice `dst` of element type `α`,
where `col` is what Scan put into the `[]byte`: a NULL column gives nil bytes,
which is not valid JSON (`unexpected end of JSON input`); `null` leaves the
slice nil; an array is decoded element by element; any other document is an
UnmarshalTypeError. `none` stands for the returned error. -/
def unmarshalSlice {α : Type} (elem : Json → Option α) : Option Json → Option (Slice α)
  | none => none
  | some .null => some none
  | some (.arr xs) => (decodeElems elem xs).map some
  | some _ => none

/-- `json.Unmarshal(tagsJSON, &event.Tags)`. -/
def unmarshalTags (col : Option Json) : Option (Slice String) :=
  unmarshalSlice (decodeString "") col

/-- `json.Unmarshal(speakersJSON, &event.Speakers)`. -/
def unmarshalSpeakers (col : Option Json) : Option (Slice Speaker) :=
  unmarshalSlice decodeSpeaker col

/-- `json.Unmarshal(scheduleJSON, &event.Schedule)`. -/
def unmarshalSchedules (col : Option Json) : Option (Slice Schedule) :=
  unmarshalSlice decodeSchedule col

/-! ## github.com/google/uuid -/

/-- The sixteen bytes of `uuid.New()` from sixteen random bytes: version 4 in
the high nibble of byte 6, the RFC 4122 variant in the top bits of byte 8. -/
def uuidNew (rnd : Fin 16 → Fin 256) : List Nat :=
  (List.finRange 16).map fun i =>
    if i.val = 6 then (rnd i).val % 16 + 64
    else if i.val = 8 then (rnd i).val % 64 + 128
    else (rnd i).val

/-- One lower-case hexadecimal digit. -/
def hexDigit (n : Nat) : Char :=
  "0123456789abcdef".toList.getD n '0'

/-- Two hexadecimal digits per byte. -/
def hexBytes (bs : List Nat) : List Char :=
  bs.flatMap fun b => [hexDigit (b / 16), hexDigit (b % 16)]

/-- `UUID.String()`: 8-4-4-4-12 hexadecimal digits separated by hyphens. -/
def uuidString (u : List Nat) : String :=
  String.mk (hexBytes (u.take 4) ++ '-' :: hexBytes ((u.drop 4).take 2) ++ '-' ::
    hexBytes ((u.drop 6).take 2) ++ '-' :: hexBytes ((u.drop 8).take 2) ++ '-' ::
    hexBytes ((u.drop 10).take 6))

/-! ## The repository operations -/

/-- `Repository.BeginTx`: `r.db.BeginTx(ctx, nil)`. -/
def BeginTx (w : Wire) (_db : DB) : Except RepoError Tx :=
  match w with
  | .broken => .error .beginFailed
  | .ok => .ok { pending := [], done := false }

/-- The eight nullable text columns of the INSERT of `CreateEventTx`, each as
its column takes it, written into a row whose other columns are set; `none`
when the server refuses one of the values. -/
def nullableColumns (sv : Server) (params : CreateEventParams) (row : Row) : Option Row := do
  let prefecture ← sv.charsNull 255 params.Prefecture
  let eventType ← sv.charsNull 255 params.EventType
  let officialURL ← sv.charsNull 255 params.OfficialURL
  let onlineLectureURL ← sv.charsNull 255 params.OnlineLectureURL
  let venue ← sv.charsNull 255 params.Venue
  let target ← sv.charsNull 255 params.Target
  let capacity ← sv.charsNull 255 params.Capacity
  let description ← sv.charsNull 65535 params.Description
  pure
    { row with
      prefecture := prefecture
      event_type := eventType
      official_url := officialURL
      online_lecture_url := onlineLectureURL
      venue := venue
      target := target
      capacity := capacity
      description := description }

/-- The row that the INSERT of `CreateEventTx` writes: the twenty-one
placeholders in the order of the column list, each as its column takes it,
`is_authenticated` FALSE, and the id issued by AUTO_INCREMENT; `none` when the
server refuses one of the values. The code is always the 36 characters of a
UUID, which `auth_code VARCHAR(36)` holds as they are. -/
def insertedRow (sv : Server) (id : Int) (params : CreateEventParams)
    (tagsJSON speakersJSON scheduleJSON : Json) (authCode : String) : Option Row := do
  let title ← sv.chars 255 params.Title
  let organizer ← sv.chars 255 params.Organizer
  let startDate ← sv.date params.StartDate
  let startTime ← sv.time params.StartTime
  let endDate ← sv.date params.EndDate
  let endTime ← sv.time params.EndTime
  let email ← sv.chars 255 params.Email
  nullableColumns sv params
    { id := id
      title := title
      organizer := organizer
      start_date := startDate
      start_time := startTime
      end_date := endDate
      end_time := endTime
      email := email
      prefecture := none
      event_type := none
      is_online := params.IsOnline
      is_offline := params.IsOffline
      official_url := none
      online_lecture_url := none
      venue := none
      target := none
      capacity := none
      description := none
      tags := some tagsJSON
      speakers := some speakersJSON
      schedule := some scheduleJSON
      auth_code := some authCode
      is_authenticated := false }

/-- `Repository.CreateEventTx`. `rnd` is the randomness consumed by
`uuid.New()`, `w` what the driver reports for the round trip of
`tx.ExecContext` (a finished transaction reports `sql.ErrTxDone`); the INSERT
also fails when the server refuses a value. The three `json.Marshal` calls
cannot fail on these types, and `LastInsertId` does not fail on this driver.
Returns the result together with the database (whose counter has moved) and
the transaction (which now holds the row). -/
def CreateEventTx (w : Wire) (rnd : Fin 16 → Fin 256) (db : DB) (tx : Tx)
    (params : CreateEventParams) : Except RepoError (Int × String) × DB × Tx :=
  let authCode := uuidString (uuidNew rnd)
  let tagsJSON := marshalTags params.Tags
  let speakersJSON := marshalSpeakers params.Speakers
  let scheduleJSON := marshalSchedules params.Schedule
  if tx.done then (.error .insertFailed, db, tx)
  else match w with
    | .broken => (.error .insertFailed, db, tx)
    | .ok =>
      let eventID : Int := (db.issued : Int) + 1
      match insertedRow db.server eventID params tagsJSON speakersJSON scheduleJSON authCode with
      | none => (.error .insertFailed, db, tx)
      | some row =>
        (.ok (eventID, authCode), { db with issued := db.issued + 1 },
          { tx with pending := tx.pending ++ [row] })

/-- The row that `CreateEventTx` writes on this database with this randomness,
if the server takes the values. -/
def pendingRow (rnd : Fin 16 → Fin 256) (db : DB) (params : CreateEventParams) : Option Row :=
  insertedRow db.server ((db.issued : Int) + 1) params (marshalTags params.Tags)
    (marshalSpeakers params.Speakers) (marshalSchedules params.Schedule)
    (uuidString (uuidNew rnd))

/-- A row holds what the server has made of the parameters of its INSERT. -/
structure Holds (sv : Server) (params : CreateEventParams) (row : Row) : Prop where
  title : sv.chars 255 params.Title = some row.title
  organizer : sv.chars 255 params.Organizer = some row.organizer
  start_date : sv.date params.StartDate = some row.start_date
  start_time : sv.time params.StartTime = some row.start_time
  end_date : sv.date params.EndDate = some row.end_date
  end_time : sv.time params.EndTime = some row.end_time
  email : sv.chars 255 params.Email = some row.email
  prefecture : sv.charsNull 255 params.Prefecture = some row.prefecture
  event_type : sv.charsNull 255 params.EventType = some row.event_type
  is_online : row.is_online = params.IsOnline
  is_offline : row.is_offline = params.IsOffline
  official_url : sv.charsNull 255 params.OfficialURL = some row.official_url
  online_lecture_url : sv.charsNull 255 params.OnlineLectureURL = some row.online_lecture_url
  venue : sv.charsNull 255 params.Venue = some row.venue
  target : sv.charsNull 255 params.Target = some row.target
  capacity : sv.charsNull 255 params.Capacity = some row.capacity
  description : sv.charsNull 65535 params.Description = some row.description
  tags : row.tags = some (marshalTags params.Tags)
  speakers : row.speakers = some (marshalSpeakers params.Speakers)
  schedule : row.schedule = some (marshalSchedules params.Schedule)

/-- A text that every server holds as it is in a character column of the
given capacity: plain ASCII that fits. -/
def plainText (capacity : Nat) (s : String) : Prop :=
  s.toList.length ≤ capacity ∧ s.toList.all (fun c => decide (c.toNat < 128)) = true

/-- An optional text that every server holds as it is. -/
def plainNull (capacity : Nat) : Option String → Prop
  | none => True
  | some s => plainText capacity s

/-- A text that denotes a date in the form `YYYY-MM-DD`. -/
def plainDate (s : String) : Prop :=
  ∃ d, canonicalDate s.toList = some d

/-- A text that denotes a time of day in the form `HH:MM:SS`. -/
def plainTime (s : String) : Prop :=
  s.toList.length = 8 ∧ ∃ t, canonicalTime s.toList = some t

/-- Parameters that every server stores and returns as they are: plain ASCII
texts within the capacity of their columns, dates written `YYYY-MM-DD`, times
written `HH:MM:SS`. -/
structure Plain (params : CreateEventParams) : Prop where
  title : plainText 255 params.Title
  organizer : plainText 255 params.Organizer
  start_date : plainDate params.StartDate
  start_time : plainTime params.StartTime
  end_date : plainDate params.EndDate
  end_time : plainTime params.EndTime
  email : plainText 255 params.Email
  prefecture : plainNull 255 params.Prefecture
  event_type : plainNull 255 params.EventType
  official_url : plainNull 255 params.OfficialURL
  online_lecture_url : plainNull 255 params.OnlineLectureURL
  venue : plainNull 255 params.Venue
  target : plainNull 255 params.Target
  capacity : plainNull 255 params.Capacity
  description : plainNull 65535 params.Description

/-- `tx.Commit()`: a finished transaction reports `sql.ErrTxDone` and changes
nothing; otherwise the transaction is finished, and its rows become part of
the table unless the driver reports a failure. `true` stands for a nil
error. -/
def Tx.Commit (w : Wire) (db : DB) (tx : Tx) : Bool × DB × Tx :=
  if tx.done then (false, db, tx)
  else match w with
    | .broken => (false, db, { tx with pending := [], done := true })
    | .ok => (true, { db with rows := db.rows ++ tx.pending }, { tx with pending := [], done := true })

/-- `tx.Rollback()`: a finished transaction reports `sql.ErrTxDone` and
changes nothing; otherwise the rows held by the transaction are discarded. -/
def Tx.Rollback (db : DB) (tx : Tx) : Bool × DB × Tx :=
  if tx.done then (false, db, tx)
  else (true, db, { tx with pending := [], done := true })

/-- The comparison of `ORDER BY start_date, start_time`: by the value of the
date, then by the value of the time. -/
def keyLE (a b : Row) : Prop :=
  a.start_date.lt b.start_date ∨
    (a.start_date = b.start_date ∧ a.start_time.seconds ≤ b.start_time.seconds)

instance keyLE.decidable : DecidableRel keyLE := fun a b => by
  unfold keyLE; infer_instance

/-- The part of query execution that SQL leaves to the server: the order in
which the rows satisfying a WHERE clause reach the sort. When several rows
have equal values in the ORDER BY columns the server is free to return them in
any order, so the only thing known about `scan` is that it permutes. -/
structure Engine where
  scan : List Row → List Row
  scan_perm : ∀ l, (scan l).Perm l

/-- The server that reads the table in insertion (primary key) order. -/
def Engine.inOrder : Engine :=
  { scan := id, scan_perm := fun _ => List.Perm.refl _ }

/-- The result set of
`SELECT ... FROM events WHERE is_authenticated = TRUE ORDER BY start_date, start_time`. -/
def selectAuthenticated (e : Engine) (db : DB) : List Row :=
  List.insertionSort keyLE (e.scan (db.rows.filter fun r => r.is_authenticated))

/-- `rows.Scan(...)` followed by the three `json.Unmarshal` calls, shared by
`GetEvents` and `GetEvent`: the twenty-two selected columns go to the fields
in the order of the column list, the DATE and TIME values as the text the
driver makes of them; `auth_code` is not selected, so `AuthCode` keeps its
zero value. -/
def scanEvent (r : Row) : Except RepoError Event :=
  match unmarshalTags r.tags with
  | none => .error .tagsUnmarshal
  | some tags =>
    match unmarshalSpeakers r.speakers with
    | none => .error .speakersUnmarshal
    | some speakers =>
      match unmarshalSchedules r.schedule with
      | none => .error .scheduleUnmarshal
      | some schedule =>
        .ok { ID := r.id
              Title := r.title
              Organizer := r.organizer
              StartDate := r.start_date.text
              StartTime := r.start_time.text
              EndDate := r.end_date.text
              EndTime := r.end_time.text
              Email := r.email
              Prefecture := r.prefecture
              EventType := r.event_type
              IsOnline := r.is_online
              IsOffline := r.is_offline
              OfficialURL := r.official_url
              OnlineLectureURL := r.online_lecture_url
              Venue := r.venue
              Target := r.target
              Capacity := r.capacity
              Description := r.description
              Tags := tags
              Speakers := speakers
              Schedule := schedule
              AuthCode := ""
              IsAuthenticated := r.is_authenticated }

/-- The `for rows.Next()` loop of `GetEvents`: the events decoded so far are
dropped at the first row that fails. -/
def scanRows : List Row → Except RepoError (List Event)
  | [] => .ok []
  | r :: rest =>
    match scanEvent r with
    | .error err => .error err
    | .ok ev =>
      match scanRows rest with
      | .error err => .error err
      | .ok evs => .ok (ev :: evs)

/-- `Repository.GetEvents`: the query, then the loop over the result set,
which stops at the first row that fails to decode. (`rows.Err()` is taken
not to fail once the query has succeeded.) -/
def GetEvents (e : Engine) (w : Wire) (db : DB) : Except RepoError (List Event) :=
  match w with
  | .broken => .error .queryFailed
  | .ok => scanRows (selectAuthenticated e db)

/-- The rows matched by `WHERE id = ? AND auth_code = ?`, the codes being
compared as the server compares them. A NULL `auth_code` equals nothing. -/
def matchesAuth (sv : Server) (id : Int) (authCode : String) (r : Row) : Bool :=
  r.id == id &&
    match r.auth_code with
    | none => false
    | some stored => sv.sameCode stored authCode

/-- The table after `UPDATE events SET is_authenticated = TRUE WHERE ...`. -/
def updatedRows (sv : Server) (id : Int) (authCode : String) (rows : List Row) : List Row :=
  rows.map fun r =>
    if matchesAuth sv id authCode r then { r with is_authenticated := true } else r

/-- `result.RowsAffected()` after that UPDATE: the matched rows when the
connection has `clientFoundRows`, the rows whose flag actually changed when
not. -/
def rowsAffected (db : DB) (id : Int) (authCode : String) : Nat :=
  if db.clientFoundRows then (db.rows.filter (matchesAuth db.server id authCode)).length
  else (db.rows.filter fun r =>
    matchesAuth db.server id authCode r && !r.is_authenticated).length

/-- `Repository.AuthenticateEvent`: the UPDATE sets the flag of every matched
row; zero rows affected is reported as "no event matches this id and code".
`none` stands for a nil error. -/
def AuthenticateEvent (w : Wire) (db : DB) (id : Int) (authCode : String) :
    Option RepoError × DB :=
  match w with
  | .broken => (some .authUpdateFailed, db)
  | .ok =>
    if rowsAffected db id authCode = 0 then
      (some .notFound, { db with rows := updatedRows db.server id authCode db.rows })
    else (none, { db with rows := updatedRows db.server id authCode db.rows })

/-- `Repository.GetEvent`: the row with this id (the primary key) and the flag
set; `sql.ErrNoRows` becomes `(nil, nil)`. -/
def GetEvent (w : Wire) (db : DB) (id : Int) : Except RepoError (Option Event) :=
  match w with
  | .broken => .error .getFailed
  | .ok =>
    match db.rows.find? fun r => r.id == id && r.is_authenticated with
    | none => .ok none
    | some r => (scanEvent r).map some

/-! ## Histories of the store -/

/-- A fresh database on a server: no rows, no id issued yet. -/
def DB.fresh (server : Server) (clientFoundRows : Bool) : DB :=
  { rows := [], issued := 0, clientFoundRows := clientFoundRows, server := server }

/-- A fresh database on a server as installed. -/
def DB.empty (clientFoundRows : Bool) : DB :=
  DB.fresh Server.defaults clientFoundRows

/-- One use of the repository by a caller. `create` is `BeginTx`, then
`CreateEventTx`, then `Commit` (with the driver's report for it) or, with
`none`, `Rollback`; `authenticate` is `AuthenticateEvent`. Every call carries
the driver's report for it. -/
inductive Op where
  | create (wBegin wInsert : Wire) (rnd : Fin 16 → Fin 256) (params : CreateEventParams)
      (finish : Option Wire) : Op
  | authenticate (w : Wire) (id : Int) (authCode : String) : Op

/-- The database together with the log of the `AuthenticateEvent` calls that
have returned nil so far, as (id, code) pairs. -/
structure History where
  db : DB
  succeeded : List (Int × String)

/-- The effect of one operation on the database and on the log. -/
def History.step (h : History) : Op → History
  | .create wBegin wInsert rnd params finish =>
    match BeginTx wBegin h.db with
    | .error _ => h
    | .ok tx =>
      match CreateEventTx wInsert rnd h.db tx params with
      | (_, db1, tx1) =>
        match finish with
        | some w => { h with db := (Tx.Commit w db1 tx1).2.1 }
        | none => { h with db := (Tx.Rollback db1 tx1).2.1 }
  | .authenticate w id authCode =>
    match AuthenticateEvent w h.db id authCode with
    | (none, db1) => { db := db1, succeeded := h.succeeded ++ [(id, authCode)] }
    | (some _, db1) => { h with db := db1 }

/-- The history reached from a fresh database by a sequence of operations. -/
def History.run (server : Server) (clientFoundRows : Bool) (ops : List Op) : History :=
  ops.foldl History.step { db := DB.fresh server clientFoundRows, succeeded := [] }

/-- Parameters with the seven required fields only, as in
`TestRepository_CreateEventTx`. -/
def testParams : CreateEventParams :=
  { Title := "Test Event", Organizer := "Test Organizer", StartDate := "2025-01-01",
    StartTime := "09:00:00", EndDate := "2025-01-01", EndTime := "10:00:00",
    Email := "test@example.com", Prefecture := none, EventType := none, IsOnline := false,
    IsOffline := false, OfficialURL := none, OnlineLectureURL := none, Venue := none,
    Target := none, Capacity := none, Description := none, Tags := none, Speakers := none,
    Schedule := none }

/-- Random bytes for the examples. -/
def zeroBytes : Fin 16 → Fin 256 := fun _ => 0

/-- Random bytes that give a token with letters in it. -/
def onesBytes : Fin 16 → Fin 256 := fun _ => 255

/-- The creation of the scenario in the specification: times written `09:00`
and `10:00`. -/
def scenarioParams : CreateEventParams :=
  { testParams with
    Title := "T", Organizer := "O", StartTime := "09:00", EndTime := "10:00",
    Email := "a@b.com" }

/-- A row inserted by hand with the eight columns of the INSERT in
`TestRepository_GetEvents`; the remaining columns take NULL or their
default. -/
def bareRow (id : Int) (title organizer : String) (startDate : Date) (startTime : Time)
    (endDate : Date) (endTime : Time) (email : String) (isAuthenticated : Bool) : Row :=
  { id := id, title := title, organizer := organizer, start_date := startDate,
    start_time := startTime, end_date := endDate, end_time := endTime, email := email,
    prefecture := none, event_type := none, is_online := false, is_offline := false,
    official_url := none, online_lecture_url := none, venue := none, target := none,
    capacity := none, description := none, tags := none, speakers := none, schedule := none,
    auth_code := none, is_authenticated := isAuthenticated }

/-- The table of `TestRepository_GetEvents` after its INSERT: Event1 on
2025-01-01 from 09:00:00 to 10:00:00, Event2 on 2025-01-02 from 10:00:00 to
11:00:00. -/
def getEventsTestDB : DB :=
  { rows := [bareRow 1 "Event1" "Org1" ⟨2025, 1, 1⟩ ⟨32400⟩ ⟨2025, 1, 1⟩ ⟨36000⟩
               "test1@example.com" true,
             bareRow 2 "Event2" "Org2" ⟨2025, 1, 2⟩ ⟨36000⟩ ⟨2025, 1, 2⟩ ⟨39600⟩
               "test2@example.com" false]
    issued := 2
    clientFoundRows := false
    server := Server.defaults }

/-- One event created and committed on a server as installed and a connection
with the driver's defaults. -/
def oneCreated : History :=
  History.run Server.defaults false [.create .ok .ok zeroBytes testParams (some .ok)]

/-- One event created and committed with a token that has letters in it. -/
def oneWithLetters : History :=
  History.run Server.defaults false [.create .ok .ok onesBytes testParams (some .ok)]

end repository

/-! ## fmt.Sprintf -/

/-- An operand of `fmt.Sprintf`. -/
inductive FmtArg where
  | int (n : Int) : FmtArg
  | str (s : String) : FmtArg

/-- Go's rendering `type=value` of an operand inside an error marker. -/
def FmtArg.typed : FmtArg → List Char
  | .int n => "int=".toList ++ (toString n).toList
  | .str s => "string=".toList ++ s.toList

/-- One verb applied to one operand: `%d` of an integer, `%s` of a string and
`%v` of either print the value; every other combination is printed as the bad
verb marker `%!c(type=value)`. Flags, widths and the remaining verbs of Go are
outside this fragment. -/
def fmtVerb (verb : Char) (a : FmtArg) : List Char :=
  match a with
  | .int n =>
    if verb = 'd' ∨ verb = 'v' then (toString n).toList
    else '%' :: '!' :: verb :: '(' :: (a.typed ++ [')'])
  | .str s =>
    if verb = 's' ∨ verb = 'v' then s.toList
    else '%' :: '!' :: verb :: '(' :: (a.typed ++ [')'])

/-- The operands left over when the format is exhausted: `%!(EXTRA ...)`. -/
def fmtExtra : List FmtArg → List Char
  | [] => []
  | a :: rest =>
    "%!(EXTRA ".toList ++ a.typed ++ (rest.flatMap fun b => ',' :: ' ' :: b.typed) ++ [')']

/-- The body of `fmt.Sprintf` on the characters of the format. -/
def sprintfChars : List Char → List FmtArg → List Char
  | [], args => fmtExtra args
  | [c], args => if c = '%' then "%!(NOVERB)".toList ++ fmtExtra args else c :: fmtExtra args
  | c :: v :: rest, args =>
    if c = '%' then
      if v = '%' then '%' :: sprintfChars rest args
      else match args with
        | [] => '%' :: '!' :: v :: ("(MISSING)".toList ++ sprintfChars rest [])
        | a :: more => fmtVerb v a ++ sprintfChars rest more
    else c :: sprintfChars (v :: rest) args

/-- `fmt.Sprintf(format, args...)`. -/
def Sprintf (format : String) (args : List FmtArg) : String :=
  String.mk (sprintfChars format.toList args)

namespace handler

/-- Speaker record of the request and response bodies. -/
structure Speaker where
  Name : String
  Title : String
  Organization : String
  deriving DecidableEq, Repr

/-- Schedule slot of the request and response bodies. -/
structure Schedule where
  Time : String
  Title : String
  Speaker : String
  deriving DecidableEq, Repr

/-- The bound request body of `POST /api/v1/event/new`. -/
structure CreateEventRequest where
  Title : String
  Organizer : String
  StartDate : String
  StartTime : String
  EndDate : String
  EndTime : String
  Email : String
  Prefecture : Option String
  EventType : Option String
  IsOnline : Bool
  IsOffline : Bool
  OfficialURL : Option String
  OnlineLectureURL : Option String
  Venue : Option String
  Target : Option String
  Capacity : Option String
  Description : Option String
  Tags : Slice String
  Speakers : Slice Speaker
  Schedule : Slice Schedule
  deriving DecidableEq, Repr

/-- The success body of `CreateEvent`. -/
structure CreateEventResponse where
  ID : String
  deriving DecidableEq, Repr

/-- `convertSpeakers`: a fresh slice of the same length (never nil). -/
def convertSpeakers (speakers : Slice Speaker) : Slice repository.Speaker :=
  some (speakers.elems.map fun s =>
    { Name := s.Name, Title := s.Title, Organization := s.Organization })

/-- `convertSchedules`: a fresh slice of the same length (never nil). -/
def convertSchedules (schedules : Slice Schedule) : Slice repository.Schedule :=
  some (schedules.elems.map fun s =>
    { Time := s.Time, Title := s.Title, Speaker := s.Speaker })

/-- What a handler hands back to echo: an `*echo.HTTPError` with its status
code and message, or a JSON response written with a status code. -/
inductive Result (β : Type) where
  | httpError (code : Nat) (message : String) : Result β
  | json (code : Nat) (body : β) : Result β

/-- What becomes of one POST to the webhook: the transport fails, or the
channel answers with a status code. -/
inductive Reply where
  | transportError : Reply
  | status (code : Nat) : Reply
  deriving DecidableEq, Repr

/-- Everything `CreateEvent` obtains from outside the process and from
packages that are not part of the sources at hand. -/
structure World where
  /-- The rule `is.Email` of ozzo-validation. -/
  isEmail : String → Bool
  /-- The constant `config.CORE_BACKEND_URL`. -/
  coreBackendURL : String
  /-- The environment variable `SLACK_WEBHOOK_URL`. -/
  slackWebhookURL : String
  /-- Whether `http.NewRequest` accepts the URL. -/
  validURL : String → Bool
  /-- The fate of a POST of this body to the webhook. -/
  webhook : Json → Reply
  /-- The driver's report for `BeginTx`. -/
  beginWire : repository.Wire
  /-- The driver's report for the INSERT. -/
  insertWire : repository.Wire
  /-- The driver's report for `Commit`. -/
  commitWire : repository.Wire
  /-- The random bytes read by `uuid.New()`. -/
  rnd : Fin 16 → Fin 256

/-- The calls a handler makes to the store and to the webhook, in order.
`rollback applied` records whether `tx.Rollback()` found an open transaction
to discard. -/
inductive Effect where
  | beginTx : Effect
  | createEventTx : Effect
  | post (url : String) (body : Json) : Effect
  | commit : Effect
  | rollback (applied : Bool) : Effect
  | authenticateEvent (id : Int) (authCode : String) : Effect
  | getEvent (id : Int) : Effect

/-- `postToSlack` with the webhook URL that `InitSlack` has just read:
`some msg` is the returned error, and the list holds the request issued, if
any. Marshalling a `map[string]string` cannot fail. Only status 200 counts as
success. -/
def postToSlack (world : World) (msg : String) : Option String × List Effect :=
  if world.slackWebhookURL = "" then (some "slackWebhookURL is not set", [])
  else
    let body := Json.obj [("text", .str msg)]
    if !world.validURL world.slackWebhookURL then (some "failed to create the request", [])
    else match world.webhook body with
      | .transportError => (some "failed to send the request", [.post world.slackWebhookURL body])
      | .status code =>
        if code ≠ 200 then (some "abnormal response", [.post world.slackWebhookURL body])
        else (none, [.post world.slackWebhookURL body])

/-- The `vd.ValidateStruct` call of `CreateEvent`: the seven required fields
are non-empty and the email passes `is.Email`. -/
def validCreate (world : World) (req : CreateEventRequest) : Bool :=
  req.Title != "" && req.Organizer != "" && req.StartDate != "" && req.StartTime != "" &&
    req.EndDate != "" && req.EndTime != "" && req.Email != "" && world.isEmail req.Email

/-- The `repository.CreateEventParams` literal built by `CreateEvent`. -/
def toParams (req : CreateEventRequest) : repository.CreateEventParams :=
  { Title := req.Title
    Organizer := req.Organizer
    StartDate := req.StartDate
    StartTime := req.StartTime
    EndDate := req.EndDate
    EndTime := req.EndTime
    Email := req.Email
    Prefecture := req.Prefecture
    EventType := req.EventType
    IsOnline := req.IsOnline
    IsOffline := req.IsOffline
    OfficialURL := req.OfficialURL
    OnlineLectureURL := req.OnlineLectureURL
    Venue := req.Venue
    Target := req.Target
    Capacity := req.Capacity
    Description := req.Description
    Tags := req.Tags
    Speakers := convertSpeakers req.Speakers
    Schedule := convertSchedules req.Schedule }

/-- The authentication link composed by `CreateEvent`. -/
def authLink (world : World) (eventID : Int) (authCode : String) : String :=
  Sprintf (world.coreBackendURL ++ "/api/v1/event/update/%d?auth_code=%s")
    [.int eventID, .str authCode]

/-- The notification text composed by `CreateEvent`. -/
def slackMessage (world : World) (req : CreateEventRequest) (eventID : Int)
    (authCode : String) : String :=
  Sprintf "新しいイベントが作成されました。\nタイトル: %s\nオーガナイザー: %s\n認証リンク: %s"
    [.str req.Title, .str req.Organizer, .str (authLink world eventID authCode)]

/-- What one run of a handler leaves behind: its return value, the database,
and the calls it made. -/
structure Outcome (β : Type) where
  result : Result β
  db : repository.DB
  trace : List Effect

/-- The deferred `tx.Rollback()` of `CreateEvent`, run when the handler
returns `result` with the store at `db`, the transaction at `tx`, after the
calls `trace`. -/
def deferredRollback {β : Type} (result : Result β) (db : repository.DB) (tx : repository.Tx)
    (trace : List Effect) : Outcome β :=
  match repository.Tx.Rollback db tx with
  | (applied, db2, _) => { result := result, db := db2, trace := trace ++ [.rollback applied] }

/-- `Handler.CreateEvent`. `bound` is the request body as bound by `c.Bind`,
`none` when binding failed. -/
def CreateEvent (world : World) (db : repository.DB) (bound : Option CreateEventRequest) :
    Outcome CreateEventResponse :=
  match bound with
  | none => { result := .httpError 400 "invalid request", db := db, trace := [] }
  | some req =>
    if !validCreate world req then
      { result := .httpError 400 "invalid request body", db := db, trace := [] }
    else
      -- 1) begin the transaction
      match repository.BeginTx world.beginWire db with
      | .error _ =>
        { result := .httpError 500 "failed to begin transaction", db := db, trace := [.beginTx] }
      | .ok tx =>
        -- 2) insert
        match repository.CreateEventTx world.insertWire world.rnd db tx (toParams req) with
        | (.error _, db1, tx1) =>
          deferredRollback (.httpError 500 "failed to create event") db1 tx1
            [.beginTx, .createEventTx]
        | (.ok (eventID, authCode), db1, tx1) =>
          -- 3) notify
          match postToSlack world (slackMessage world req eventID authCode) with
          | (some _, sent) =>
            deferredRollback (.httpError 500 "failed to send Slack notification") db1 tx1
              ([.beginTx, .createEventTx] ++ sent)
          | (none, sent) =>
            -- 4) commit
            match repository.Tx.Commit world.commitWire db1 tx1 with
            | (false, db2, tx2) =>
              deferredRollback (.httpError 500 "failed to commit transaction") db2 tx2
                ([.beginTx, .createEventTx] ++ sent ++ [.commit])
            | (true, db2, tx2) =>
              deferredRollback (.json 200 { ID := Sprintf "%d" [.int eventID] }) db2 tx2
                ([.beginTx, .createEventTx] ++ sent ++ [.commit])

/-! ## The authentication and lookup handlers -/

/-- The success body of `UpdateEvent`. -/
structure UpdateEventResponse where
  Message : String
  deriving DecidableEq, Repr

/-- The success body of `GetEvent`. -/
structure GetEventResponse where
  ID : Int
  Title : String
  Organizer : String
  StartDate : String
  StartTime : String
  EndDate : String
  EndTime : String
  Email : String
  Prefecture : Option String
  EventType : Option String
  IsOnline : Bool
  IsOffline : Bool
  OfficialURL : Option String
  OnlineLectureURL : Option String
  Venue : Option String
  Target : Option String
  Capacity : Option String
  Description : Option String
  Tags : Slice String
  Speakers : Slice Speaker
  Schedule : Slice Schedule
  deriving DecidableEq, Repr

/-- `convertSpeakersToResponse`: a fresh slice of the same length. -/
def convertSpeakersToResponse (speakers : Slice repository.Speaker) : Slice Speaker :=
  some (speakers.elems.map fun s =>
    { Name := s.Name, Title := s.Title, Organization := s.Organization })

/-- `convertSchedulesToResponse`: a fresh slice of the same length. -/
def convertSchedulesToResponse (schedules : Slice repository.Schedule) : Slice Schedule :=
  some (schedules.elems.map fun s =>
    { Time := s.Time, Title := s.Title, Speaker := s.Speaker })

/-- `Handler.UpdateEvent` for the path parameter `id` and the query parameter
`auth_code`; `w` is the driver's report for the UPDATE. -/
def UpdateEvent (w : repository.Wire) (db : repository.DB) (idParam authCode : String) :
    Outcome UpdateEventResponse :=
  match Atoi idParam with
  | none => { result := .httpError 400 "invalid event ID", db := db, trace := [] }
  | some id =>
    match repository.AuthenticateEvent w db id authCode with
    | (some _, db1) =>
      { result := .httpError 400 "authentication failed", db := db1,
        trace := [.authenticateEvent id authCode] }
    | (none, db1) =>
      { result := .json 200 { Message := "Event authenticated successfully" }, db := db1,
        trace := [.authenticateEvent id authCode] }

/-- `Handler.GetEvent` for the path parameter `id`; `w` is the driver's report
for the query. An `echo.NewHTTPError` without a message carries the status
text. -/
def GetEvent (w : repository.Wire) (db : repository.DB) (idParam : String) :
    Outcome GetEventResponse :=
  match Atoi idParam with
  | none => { result := .httpError 400 "invalid event ID", db := db, trace := [] }
  | some id =>
    match repository.GetEvent w db id with
    | .error _ =>
      { result := .httpError 500 "Internal Server Error", db := db, trace := [.getEvent id] }
    | .ok none =>
      { result := .httpError 404 "event not found", db := db, trace := [.getEvent id] }
    | .ok (some event) =>
      { result := .json 200
          { ID := event.ID
            Title := event.Title
            Organizer := event.Organizer
            StartDate := event.StartDate
            StartTime := event.StartTime
            EndDate := event.EndDate
            EndTime := event.EndTime
            Email := event.Email
            Prefecture := event.Prefecture
            EventType := event.EventType
            IsOnline := event.IsOnline
            IsOffline := event.IsOffline
            OfficialURL := event.OfficialURL
            OnlineLectureURL := event.OnlineLectureURL
            Venue := event.Venue
            Target := event.Target
            Capacity := event.Capacity
            Description := event.Description
            Tags := event.Tags
            Speakers := convertSpeakersToResponse event.Speakers
            Schedule := convertSchedulesToResponse event.Schedule }
        db := db
        trace := [.getEvent id] }

/-! ## Worlds and requests for the examples -/

/-- The request body of the handler tests. -/
def testRequest : CreateEventRequest :=
  { Title := "Test Event", Organizer := "Test Org", StartDate := "2025-01-01",
    StartTime := "09:00:00", EndDate := "2025-01-01", EndTime := "10:00:00",
    Email := "test@example.com", Prefecture := none, EventType := none, IsOnline := false,
    IsOffline := false, OfficialURL := none, OnlineLectureURL := none, Venue := none,
    Target := none, Capacity := none, Description := none, Tags := none, Speakers := none,
    Schedule := none }

/-- A world in which every collaborator works. -/
def World.working : World :=
  { isEmail := fun _ => true
    coreBackendURL := "https://example.com"
    slackWebhookURL := "https://hooks.example.com/services/T"
    validURL := fun _ => true
    webhook := fun _ => Reply.status 200
    beginWire := repository.Wire.ok
    insertWire := repository.Wire.ok
    commitWire := repository.Wire.ok
    rnd := repository.zeroBytes }

/-- A world in which the webhook answers 500. -/
def World.slackDown : World :=
  { World.working with webhook := fun _ => Reply.status 500 }

/-- A world in which the notification goes through and the commit fails. -/
def World.commitDown : World :=
  { World.working with commitWire := repository.Wire.broken }

/-- A database whose counter has issued 122 ids and whose table is empty. -/
def db122 : repository.DB :=
  { rows := [], issued := 122, clientFoundRows := false, server := Server.defaults }

/-- The notification of this attempt was delivered: a POST was issued and the
channel answered 200. -/
def Delivered (world : World) (out : Outcome CreateEventResponse) : Prop :=
  ∃ url body, Effect.post url body ∈ out.trace ∧ world.webhook body = Reply.status 200

/-- The attempt left a record in the committed table. -/
def Committed (db : repository.DB) (out : Outcome CreateEventResponse) : Prop :=
  out.db.rows ≠ db.rows

end handler

end Mathday

/-! # Theorems -/

namespace Mathday

open repository
open handler hiding GetEvent

/-! ## Formatting -/

theorem Sprintf_d (n : Int) : Sprintf "%d" [.int n] = toString n := by
  have h : "%d".toList = ['%', 'd'] := rfl
  simp [Sprintf, h, sprintfChars, fmtVerb, fmtExtra]

theorem uuidString_ne_empty (u : List Nat) : uuidString u ≠ "" := by
  intro h
  have h2 := congrArg String.data h
  simp [uuidString] at h2

/-! ## Dates and times as the server returns them -/

open handler hiding GetEvent

theorem digitChar_digitValue (c : Char) (v : Nat) (h : digitValue c = some v) :
    v < 10 ∧ digitChar v = c := by
  unfold digitValue at h
  split at h
  · rename_i hc
    simp only [Option.some.injEq] at h
    have h0 : '0'.toNat = 48 := rfl
    have h9 : '9'.toNat = 57 := rfl
    rw [h0, h9] at hc
    rw [h0] at h
    subst h
    refine ⟨by omega, ?_⟩
    unfold digitChar
    have : 48 + (c.toNat - 48) % 10 = c.toNat := by omega
    rw [this]
    exact Char.ofNat_toNat c
  · cases h

theorem digitChar_mod (n : Nat) : digitChar (n % 10) = digitChar n := by
  unfold digitChar
  rw [Nat.mod_mod]

theorem parseDigits_two (a b : Char) (n : Nat) (h : parseDigits [a, b] 0 = some n) :
    n < 100 ∧ twoDigits n = [a, b] := by
  simp only [parseDigits] at h
  cases ha : digitValue a with
  | none => simp [ha] at h
  | some x =>
    cases hb : digitValue b with
    | none => simp [ha, hb] at h
    | some y =>
      simp only [ha, hb, Option.some.injEq] at h
      obtain ⟨hx, hxa⟩ := digitChar_digitValue a x ha
      obtain ⟨hy, hyb⟩ := digitChar_digitValue b y hb
      subst h
      refine ⟨by omega, ?_⟩
      unfold twoDigits
      have h1 : (0 * 10 + x) * 10 + y = x * 10 + y := by omega
      rw [h1]
      have e1 : digitChar ((x * 10 + y) / 10) = digitChar x := by
        have : (x * 10 + y) / 10 = x := by omega
        rw [this]
      have e2 : digitChar (x * 10 + y) = digitChar y := by
        rw [← digitChar_mod]
        have : (x * 10 + y) % 10 = y := by omega
        rw [this]
      rw [e1, e2, hxa, hyb]

theorem parseDigits_four (a b c d : Char) (n : Nat) (h : parseDigits [a, b, c, d] 0 = some n) :
    fourDigits n = [a, b, c, d] := by
  simp only [parseDigits] at h
  cases ha : digitValue a with
  | none => simp [ha] at h
  | some x =>
    cases hb : digitValue b with
    | none => simp [ha, hb] at h
    | some y =>
      cases hc : digitValue c with
      | none => simp [ha, hb, hc] at h
      | some z =>
        cases hd : digitValue d with
        | none => simp [ha, hb, hc, hd] at h
        | some w =>
          simp only [ha, hb, hc, hd, Option.some.injEq] at h
          obtain ⟨hx, hxa⟩ := digitChar_digitValue a x ha
          obtain ⟨hy, hyb⟩ := digitChar_digitValue b y hb
          obtain ⟨hz, hzc⟩ := digitChar_digitValue c z hc
          obtain ⟨hw, hwd⟩ := digitChar_digitValue d w hd
          subst h
          unfold fourDigits
          have hN : (((0 * 10 + x) * 10 + y) * 10 + z) * 10 + w =
              x * 1000 + y * 100 + z * 10 + w := by omega
          rw [hN]
          have e1 : digitChar ((x * 1000 + y * 100 + z * 10 + w) / 1000) = digitChar x := by
            have : (x * 1000 + y * 100 + z * 10 + w) / 1000 = x := by omega
            rw [this]
          have e2 : digitChar ((x * 1000 + y * 100 + z * 10 + w) / 100) = digitChar y := by
            rw [← digitChar_mod]
            have : (x * 1000 + y * 100 + z * 10 + w) / 100 % 10 = y := by omega
            rw [this]
          have e3 : digitChar ((x * 1000 + y * 100 + z * 10 + w) / 10) = digitChar z := by
            rw [← digitChar_mod]
            have : (x * 1000 + y * 100 + z * 10 + w) / 10 % 10 = z := by omega
            rw [this]
          have e4 : digitChar (x * 1000 + y * 100 + z * 10 + w) = digitChar w := by
            rw [← digitChar_mod]
            have : (x * 1000 + y * 100 + z * 10 + w) % 10 = w := by omega
            rw [this]
          rw [e1, e2, e3, e4, hxa, hyb, hzc, hwd]

/-- A date written `YYYY-MM-DD` comes back as it was written. -/
theorem Date_text_of_canonical (s : String) (d : Date) (h : canonicalDate s.toList = some d) :
    d.text = s := by
  apply String.ext
  show (fourDigits d.year ++ '-' :: twoDigits d.month ++ '-' :: twoDigits d.day) = s.toList
  generalize s.toList = l at h
  match l, h with
  | [y1, y2, y3, y4, s1, m1, m2, s2, d1, d2], h =>
    simp only [canonicalDate] at h
    split at h
    · rename_i hs
      cases hy : parseDigits [y1, y2, y3, y4] 0 with
      | none => simp [hy] at h
      | some y =>
        cases hm : parseDigits [m1, m2] 0 with
        | none => simp [hy, hm] at h
        | some m =>
          cases hd : parseDigits [d1, d2] 0 with
          | none => simp [hy, hm, hd] at h
          | some dd =>
            simp only [hy, hm, hd] at h
            split at h
            · simp only [Option.some.injEq] at h
              subst h
              simp only [parseDigits_four _ _ _ _ _ hy, (parseDigits_two _ _ _ hm).2,
                (parseDigits_two _ _ _ hd).2, hs.1, hs.2]
              rfl
            · cases h
    · cases h

theorem Time_text_of_nat (h m c : Nat) (hh : h < 100) (hm : m ≤ 59) (hc : c ≤ 59) :
    (Time.mk ((h * 3600 + m * 60 + c : Nat) : Int)).text =
      String.mk (twoDigits h ++ ':' :: twoDigits m ++ ':' :: twoDigits c) := by
  unfold Time.text
  have hneg : ¬ ((h * 3600 + m * 60 + c : Nat) : Int) < 0 := by
    exact not_lt.mpr (Int.ofNat_nonneg _)
  have habs : ((h * 3600 + m * 60 + c : Nat) : Int).natAbs = h * 3600 + m * 60 + c :=
    Int.natAbs_ofNat _
  have e1 : (h * 3600 + m * 60 + c) / 3600 = h := by omega
  have e2 : (h * 3600 + m * 60 + c) / 60 % 60 = m := by omega
  have e3 : (h * 3600 + m * 60 + c) % 60 = c := by omega
  simp only [hneg, habs, e1, e2, e3, hh, if_true, if_false, List.nil_append]

/-- A time written `HH:MM:SS` comes back as it was written, and a time
written `HH:MM` comes back with `:00` appended. -/
theorem Time_text_of_canonical (s : String) (t : Time) (h : canonicalTime s.toList = some t) :
    (s.toList.length = 8 → t.text = s) ∧ (s.toList.length = 5 → t.text = s ++ ":00") := by
  have hs : s = String.mk s.toList := rfl
  generalize s.toList = l at h hs
  match l, h with
  | [h1, h2, s1, m1, m2], h =>
    refine ⟨fun hl => by simp at hl, fun _ => ?_⟩
    simp only [canonicalTime] at h
    split at h
    · rename_i hsep
      cases hh : parseDigits [h1, h2] 0 with
      | none => simp [hh] at h
      | some hv =>
        cases hm : parseDigits [m1, m2] 0 with
        | none => simp [hh, hm] at h
        | some mv =>
          simp only [hh, hm] at h
          split at h
          · rename_i hle
            simp only [Option.some.injEq] at h
            subst h
            have := Time_text_of_nat hv mv 0 (parseDigits_two _ _ _ hh).1 hle (Nat.zero_le _)
            simp only [Nat.add_zero] at this
            rw [this, hs, (parseDigits_two _ _ _ hh).2, (parseDigits_two _ _ _ hm).2, hsep]
            rfl
          · cases h
    · cases h
  | [h1, h2, h3, s1, m1, m2, s2, c1, c2], _ =>
    exact ⟨fun hl => by simp at hl, fun hl => by simp at hl⟩
  | [h1, h2, s1, m1, m2, s2, c1, c2], h =>
    refine ⟨fun _ => ?_, fun hl => by simp at hl⟩
    simp only [canonicalTime] at h
    split at h
    · rename_i hsep
      cases hh : parseDigits [h1, h2] 0 with
      | none => simp [hh] at h
      | some hv =>
        cases hm : parseDigits [m1, m2] 0 with
        | none => simp [hh, hm] at h
        | some mv =>
          cases hc : parseDigits [c1, c2] 0 with
          | none => simp [hh, hm, hc] at h
          | some cv =>
            simp only [hh, hm, hc] at h
            split at h
            · rename_i hle
              simp only [Option.some.injEq] at h
              subst h
              rw [Time_text_of_nat hv mv cv (parseDigits_two _ _ _ hh).1 hle.1 hle.2, hs,
                (parseDigits_two _ _ _ hh).2, (parseDigits_two _ _ _ hm).2,
                (parseDigits_two _ _ _ hc).2, hsep.1, hsep.2]
              rfl
            · cases h
    · cases h

/-! ## What every server stores -/

theorem Server.chars_plain (sv : Server) (capacity : Nat) (s : String)
    (h : plainText capacity s) : sv.chars capacity s = some s := by
  unfold Server.chars
  exact if_pos h

theorem Server.charsNull_plain (sv : Server) (capacity : Nat) (s : Option String)
    (h : plainNull capacity s) : sv.charsNull capacity s = some s := by
  cases s with
  | none => rfl
  | some s => simp [Server.charsNull, Server.chars_plain sv capacity s h]

theorem Server.date_canonical (sv : Server) (s : String) (d : Date)
    (h : canonicalDate s.toList = some d) : sv.date s = some d := by
  unfold Server.date
  rw [h]

theorem Server.time_canonical (sv : Server) (s : String) (t : Time)
    (h : canonicalTime s.toList = some t) : sv.time s = some t := by
  unfold Server.time
  rw [h]

/-- A text that has no digit at all is no date for a server in strict mode. -/
theorem Server.date_refused (sv : Server) (s : String) (hstrict : sv.strict = true)
    (hne : s.toList ≠ []) (hnodigit : ∀ c ∈ s.toList, digitValue c = none)
    (hcanon : canonicalDate s.toList = none) : sv.date s = none := by
  have h1 : s.toList.isEmpty = false := by
    cases hl : s.toList with
    | nil => exact absurd hl hne
    | cons a l => rfl
  have h2 : s.toList.all (fun c => (digitValue c).isNone) = true := by
    rw [List.all_eq_true]
    intro c hc
    rw [hnodigit c hc]; rfl
  unfold Server.date
  rw [hcanon, hstrict, h1, h2]
  rfl

/-! ## Transactions -/

theorem BeginTx_ok (db : DB) : BeginTx .ok db = .ok { pending := [], done := false } := rfl

theorem CreateEventTx_ok (rnd : Fin 16 → Fin 256) (db : DB) (pending : List Row)
    (params : CreateEventParams) (row : Row) (hrow : pendingRow rnd db params = some row) :
    CreateEventTx .ok rnd db { pending := pending, done := false } params =
      (.ok (((db.issued : Int) + 1), uuidString (uuidNew rnd)),
        { db with issued := db.issued + 1 },
        { pending := pending ++ [row], done := false }) := by
  unfold pendingRow at hrow
  simp [CreateEventTx, hrow]

/-- When the server refuses a value, the INSERT fails and nothing moves. -/
theorem CreateEventTx_refused (w : Wire) (rnd : Fin 16 → Fin 256) (db : DB) (tx : Tx)
    (params : CreateEventParams) (hrow : pendingRow rnd db params = none) :
    CreateEventTx w rnd db tx params = (.error .insertFailed, db, tx) := by
  unfold pendingRow at hrow
  unfold CreateEventTx
  cases hd : tx.done <;> cases w <;> simp [hrow]

/-- A failed `CreateEventTx` leaves the database and the transaction as they
were. -/
theorem CreateEventTx_error (w : Wire) (rnd : Fin 16 → Fin 256) (db : DB) (tx : Tx)
    (params : CreateEventParams) (e : RepoError) (db1 : DB) (tx1 : Tx)
    (h : CreateEventTx w rnd db tx params = (.error e, db1, tx1)) :
    e = .insertFailed ∧ db1 = db ∧ tx1 = tx := by
  unfold CreateEventTx at h
  cases hd : tx.done
  · cases w
    · simp only [hd] at h
      cases hr : insertedRow db.server ((db.issued : Int) + 1) params (marshalTags params.Tags)
          (marshalSpeakers params.Speakers) (marshalSchedules params.Schedule)
          (uuidString (uuidNew rnd)) with
      | none =>
        simp [hr] at h
        exact ⟨h.1.symm, h.2.1.symm, h.2.2.symm⟩
      | some row => simp [hr] at h
    · simp [hd] at h
      exact ⟨h.1.symm, h.2.1.symm, h.2.2.symm⟩
  · simp [hd] at h
    exact ⟨h.1.symm, h.2.1.symm, h.2.2.symm⟩

/-- Whatever `CreateEventTx` returns, it leaves the committed rows, the
server and the connection flag alone, and an open transaction stays open. -/
theorem CreateEventTx_frame (w : Wire) (rnd : Fin 16 → Fin 256) (db : DB) (tx : Tx)
    (params : CreateEventParams) :
    (CreateEventTx w rnd db tx params).2.1.rows = db.rows ∧
      (CreateEventTx w rnd db tx params).2.1.clientFoundRows = db.clientFoundRows ∧
      (CreateEventTx w rnd db tx params).2.2.done = tx.done := by
  cases hr : pendingRow rnd db params with
  | none => rw [CreateEventTx_refused _ _ _ _ _ hr]; exact ⟨rfl, rfl, rfl⟩
  | some row =>
    unfold pendingRow at hr
    unfold CreateEventTx
    cases hd : tx.done <;> cases w <;> simp [hr, hd]

theorem CreateEventTx_server (w : Wire) (rnd : Fin 16 → Fin 256) (db : DB) (tx : Tx)
    (params : CreateEventParams) :
    (CreateEventTx w rnd db tx params).2.1.server = db.server := by
  cases hr : pendingRow rnd db params with
  | none => rw [CreateEventTx_refused _ _ _ _ _ hr]
  | some row =>
    unfold pendingRow at hr
    unfold CreateEventTx
    cases hd : tx.done <;> cases w <;> simp [hr, hd]

/-- What a successful `CreateEventTx` in a fresh transaction has done. -/
theorem CreateEventTx_ok_inv (w : Wire) (rnd : Fin 16 → Fin 256) (db : DB)
    (params : CreateEventParams) (eventID : Int) (authCode : String) (db1 : DB) (tx1 : Tx)
    (h : CreateEventTx w rnd db { pending := [], done := false } params =
      (.ok (eventID, authCode), db1, tx1)) :
    w = .ok ∧ eventID = (db.issued : Int) + 1 ∧ authCode = uuidString (uuidNew rnd) ∧
      db1 = { db with issued := db.issued + 1 } ∧
      ∃ row, pendingRow rnd db params = some row ∧ tx1 = { pending := [row], done := false } := by
  cases w with
  | broken => simp [CreateEventTx] at h
  | ok =>
    cases hr : pendingRow rnd db params with
    | none => rw [CreateEventTx_refused _ _ _ _ _ hr] at h; simp at h
    | some row =>
      rw [CreateEventTx_ok _ _ _ _ _ hr] at h
      simp only [Prod.mk.injEq, Except.ok.injEq, List.nil_append] at h
      exact ⟨rfl, h.1.1.symm, h.1.2.symm, h.2.1.symm, row, rfl, h.2.2.symm⟩

/-- The row of a successful INSERT holds what the server made of the
parameters, under the issued id, with the generated code and the flag
FALSE. -/
theorem pendingRow_holds (rnd : Fin 16 → Fin 256) (db : DB) (params : CreateEventParams)
    (row : Row) (h : pendingRow rnd db params = some row) :
    Holds db.server params row ∧ row.id = (db.issued : Int) + 1 ∧
      row.auth_code = some (uuidString (uuidNew rnd)) ∧ row.is_authenticated = false := by
  unfold pendingRow insertedRow at h
  obtain ⟨a1, h1, h⟩ := Option.bind_eq_some.mp h
  obtain ⟨a2, h2, h⟩ := Option.bind_eq_some.mp h
  obtain ⟨a3, h3, h⟩ := Option.bind_eq_some.mp h
  obtain ⟨a4, h4, h⟩ := Option.bind_eq_some.mp h
  obtain ⟨a5, h5, h⟩ := Option.bind_eq_some.mp h
  obtain ⟨a6, h6, h⟩ := Option.bind_eq_some.mp h
  obtain ⟨a7, h7, h⟩ := Option.bind_eq_some.mp h
  unfold nullableColumns at h
  obtain ⟨a8, h8, h⟩ := Option.bind_eq_some.mp h
  obtain ⟨a9, h9, h⟩ := Option.bind_eq_some.mp h
  obtain ⟨a10, h10, h⟩ := Option.bind_eq_some.mp h
  obtain ⟨a11, h11, h⟩ := Option.bind_eq_some.mp h
  obtain ⟨a12, h12, h⟩ := Option.bind_eq_some.mp h
  obtain ⟨a13, h13, h⟩ := Option.bind_eq_some.mp h
  obtain ⟨a14, h14, h⟩ := Option.bind_eq_some.mp h
  obtain ⟨a15, h15, h⟩ := Option.bind_eq_some.mp h
  have h := Option.some.inj h
  subst h
  exact ⟨⟨h1, h2, h3, h4, h5, h6, h7, h8, h9, rfl, rfl, h10, h11, h12, h13, h14, h15, rfl, rfl,
    rfl⟩, rfl, rfl, rfl⟩

/-- Every server takes plain parameters. -/
theorem pendingRow_plain (rnd : Fin 16 → Fin 256) (db : DB) (params : CreateEventParams)
    (hp : Plain params) : ∃ row, pendingRow rnd db params = some row := by
  obtain ⟨d1, hd1⟩ := hp.start_date
  obtain ⟨-, t1, ht1⟩ := hp.start_time
  obtain ⟨d2, hd2⟩ := hp.end_date
  obtain ⟨-, t2, ht2⟩ := hp.end_time
  unfold pendingRow insertedRow nullableColumns
  rw [Server.chars_plain _ _ _ hp.title, Server.chars_plain _ _ _ hp.organizer,
    Server.chars_plain _ _ _ hp.email, Server.date_canonical _ _ _ hd1,
    Server.date_canonical _ _ _ hd2, Server.time_canonical _ _ _ ht1,
    Server.time_canonical _ _ _ ht2, Server.charsNull_plain _ _ _ hp.prefecture,
    Server.charsNull_plain _ _ _ hp.event_type, Server.charsNull_plain _ _ _ hp.official_url,
    Server.charsNull_plain _ _ _ hp.online_lecture_url, Server.charsNull_plain _ _ _ hp.venue,
    Server.charsNull_plain _ _ _ hp.target, Server.charsNull_plain _ _ _ hp.capacity,
    Server.charsNull_plain _ _ _ hp.description]
  exact ⟨_, rfl⟩

/-- Rolling back never touches the committed rows. -/
theorem Rollback_rows (db : DB) (tx : Tx) : (Tx.Rollback db tx).2.1 = db := by
  unfold Tx.Rollback
  split <;> rfl

/-- Queries see the committed rows only. -/
theorem GetEvents_congr (e : Engine) (w : Wire) (db db2 : DB) (h : db2.rows = db.rows) :
    GetEvents e w db2 = GetEvents e w db := by
  cases w <;> simp [GetEvents, selectAuthenticated, h]

theorem GetEvent_congr (w : Wire) (db db2 : DB) (id : Int) (h : db2.rows = db.rows) :
    GetEvent w db2 id = GetEvent w db id := by
  cases w <;> simp [GetEvent, h]

/-! ## The creation workflow -/

theorem BeginTx_open (w : Wire) (db : DB) (tx : Tx) (h : BeginTx w db = .ok tx) :
    tx = { pending := [], done := false } := by
  cases w <;> simp [BeginTx] at h
  exact h.symm

theorem postToSlack_sent (world : World) (msg : String) (x : Effect)
    (hx : x ∈ (postToSlack world msg).2) : ∃ url body, x = .post url body := by
  unfold postToSlack at hx
  by_cases h1 : world.slackWebhookURL = ""
  · simp [h1] at hx
  · by_cases h2 : world.validURL world.slackWebhookURL = true
    · cases h3 : world.webhook (Json.obj [("text", Json.str msg)]) with
      | transportError => simp [h1, h2, h3] at hx; exact ⟨_, _, hx⟩
      | status code =>
        by_cases h4 : code = 200 <;> (simp [h1, h2, h3, h4] at hx; exact ⟨_, _, hx⟩)
    · simp [h1, h2] at hx

/-- C1: for every request that passes validation and every store, if
`postToSlack` returns an error after `CreateEventTx` has succeeded, then
`CreateEvent` returns HTTP 500, `Commit` is not among its calls, the
transaction is rolled back, the committed rows are what they were, and so
`GetEvents` and `GetEvent` (for every id) answer as they did before the
attempt. -/
theorem CreateEvent_notification_failure_rolls_back (world : World) (db : DB)
    (req : CreateEventRequest) (tx : Tx) (eventID : Int) (authCode : String) (db1 : DB)
    (tx1 : Tx) (err : String) (sent : List Effect)
    (hvalid : validCreate world req = true)
    (hbegin : BeginTx world.beginWire db = .ok tx)
    (hcreate : CreateEventTx world.insertWire world.rnd db tx (toParams req) =
      (.ok (eventID, authCode), db1, tx1))
    (hslack : postToSlack world (slackMessage world req eventID authCode) = (some err, sent)) :
    (CreateEvent world db (some req)).result =
        .httpError 500 "failed to send Slack notification" ∧
      Effect.commit ∉ (CreateEvent world db (some req)).trace ∧
      Effect.rollback true ∈ (CreateEvent world db (some req)).trace ∧
      (CreateEvent world db (some req)).db.rows = db.rows ∧
      (∀ e w, GetEvents e w (CreateEvent world db (some req)).db = GetEvents e w db) ∧
      (∀ w id, GetEvent w (CreateEvent world db (some req)).db id = GetEvent w db id) := by
  have htx := BeginTx_open _ _ _ hbegin
  have hframe := CreateEventTx_frame world.insertWire world.rnd db tx (toParams req)
  rw [hcreate] at hframe
  obtain ⟨hrows, -, hdone⟩ := hframe
  simp only [htx] at hdone
  have hsent : ∀ x ∈ sent, ∃ url body, x = Effect.post url body := by
    intro x hx
    apply postToSlack_sent world (slackMessage world req eventID authCode)
    rw [hslack]; exact hx
  have hout : CreateEvent world db (some req) =
      { result := .httpError 500 "failed to send Slack notification", db := db1,
        trace := [.beginTx, .createEventTx] ++ sent ++ [.rollback true] } := by
    simp [CreateEvent, hvalid, hbegin, hcreate, hslack, deferredRollback, Tx.Rollback, hdone]
  rw [hout]
  refine ⟨rfl, ?_, by simp, hrows, fun e w => GetEvents_congr e w db db1 hrows,
    fun w id => GetEvent_congr w db db1 id hrows⟩
  intro hmem
  simp only [List.mem_append, List.mem_cons, List.mem_singleton, List.not_mem_nil, or_false,
    reduceCtorEq, false_or] at hmem
  obtain ⟨url, body, h⟩ := hsent _ hmem
  cases h

theorem CreateEvent_notification_failure_rolls_back_witness :
    (CreateEvent World.slackDown (DB.empty false) (some testRequest)).result =
        .httpError 500 "failed to send Slack notification" ∧
      Effect.commit ∉ (CreateEvent World.slackDown (DB.empty false) (some testRequest)).trace ∧
      Effect.rollback true ∈
        (CreateEvent World.slackDown (DB.empty false) (some testRequest)).trace ∧
      (CreateEvent World.slackDown (DB.empty false) (some testRequest)).db.rows =
        (DB.empty false).rows ∧
      (∀ e w, GetEvents e w (CreateEvent World.slackDown (DB.empty false) (some testRequest)).db =
        GetEvents e w (DB.empty false)) ∧
      (∀ w id, GetEvent w (CreateEvent World.slackDown (DB.empty false) (some testRequest)).db id =
        GetEvent w (DB.empty false) id) :=
  CreateEvent_notification_failure_rolls_back World.slackDown (DB.empty false) testRequest
    { pending := [], done := false } 1 (uuidString (uuidNew zeroBytes))
    _ _
    "abnormal response"
    [.post "https://hooks.example.com/services/T"
      (.obj [("text", .str (slackMessage World.slackDown testRequest 1
        (uuidString (uuidNew zeroBytes))))])]
    (by decide) rfl rfl rfl

/-- C2: for every valid request, if `BeginTx`, `CreateEventTx`, the
notification and `Commit` all succeed, `CreateEvent` answers 200 with a body
whose id is the decimal string of the id returned by `CreateEventTx`. -/
theorem CreateEvent_success_response (world : World) (db : DB) (req : CreateEventRequest)
    (tx : Tx) (eventID : Int) (authCode : String) (db1 : DB) (tx1 : Tx) (sent : List Effect)
    (db2 : DB) (tx2 : Tx)
    (hvalid : validCreate world req = true)
    (hbegin : BeginTx world.beginWire db = .ok tx)
    (hcreate : CreateEventTx world.insertWire world.rnd db tx (toParams req) =
      (.ok (eventID, authCode), db1, tx1))
    (hslack : postToSlack world (slackMessage world req eventID authCode) = (none, sent))
    (hcommit : Tx.Commit world.commitWire db1 tx1 = (true, db2, tx2)) :
    (CreateEvent world db (some req)).result = .json 200 { ID := toString eventID } := by
  simp [CreateEvent, hvalid, hbegin, hcreate, hslack, hcommit, deferredRollback, Sprintf_d]

theorem CreateEvent_success_response_witness :
    (CreateEvent World.working db122 (some testRequest)).result = .json 200 { ID := "123" } :=
  CreateEvent_success_response World.working db122 testRequest
    { pending := [], done := false } 123 (uuidString (uuidNew zeroBytes))
    _ _
    [.post "https://hooks.example.com/services/T"
      (.obj [("text", .str (slackMessage World.working testRequest 123
        (uuidString (uuidNew zeroBytes))))])]
    _ _
    (by decide) rfl rfl rfl rfl

/-! ## Authentication -/

/-- The row after the UPDATE of `AuthenticateEvent`. -/
theorem setFlag_of_flag (r : Row) (h : r.is_authenticated = true) :
    { r with is_authenticated := true } = r := by
  cases r
  simp_all

theorem filter_length_eq_zero {α : Type} (p : α → Bool) (l : List α)
    (h : (l.filter p).length = 0) : ∀ x ∈ l, p x = false := by
  intro x hx
  by_contra hp
  have hp2 : p x = true := by simpa using hp
  have hmem : x ∈ l.filter p := List.mem_filter.mpr ⟨hx, hp2⟩
  rw [List.length_eq_zero.mp h] at hmem
  exact List.not_mem_nil _ hmem

theorem map_eq_self {α : Type} (f : α → α) (l : List α) (h : ∀ x ∈ l, f x = x) :
    l.map f = l := by
  induction l with
  | nil => rfl
  | cons a t ih =>
    simp only [List.map_cons]
    rw [h a (List.mem_cons_self _ _), ih (fun x hx => h x (List.mem_cons_of_mem _ hx))]

/-- When no row is affected the UPDATE has changed nothing. -/
theorem updatedRows_of_rowsAffected_zero (db : DB) (id : Int) (authCode : String)
    (h0 : rowsAffected db id authCode = 0) :
    updatedRows db.server id authCode db.rows = db.rows := by
  apply map_eq_self
  intro r hr
  unfold rowsAffected at h0
  cases hfr : db.clientFoundRows with
  | true =>
    simp only [hfr, if_true] at h0
    have := filter_length_eq_zero _ _ h0 r hr
    simp [this]
  | false =>
    simp only [hfr] at h0
    have := filter_length_eq_zero _ _ h0 r hr
    by_cases hm : matchesAuth db.server id authCode r = true
    · have hflag : r.is_authenticated = true := by simpa [hm] using this
      simp only [hm, if_true]
      exact setFlag_of_flag r hflag
    · simp [hm]

/-- An `AuthenticateEvent` that returns an error has changed nothing. -/
theorem AuthenticateEvent_error_unchanged (w : Wire) (db : DB) (id : Int) (authCode : String)
    (e : RepoError) (h : (AuthenticateEvent w db id authCode).1 = some e) :
    (AuthenticateEvent w db id authCode).2 = db := by
  cases w with
  | broken => rfl
  | ok =>
    by_cases h0 : rowsAffected db id authCode = 0
    · simp [AuthenticateEvent, h0, updatedRows_of_rowsAffected_zero db id authCode h0]
    · simp [AuthenticateEvent, h0] at h

/-- C4 (as written, refuted): on a server with the default, case-insensitive
collation the upper-case spelling of a stored token is a string that is not
the stored token, yet `AuthenticateEvent` returns nil for it and sets the
flag of the event. -/
theorem AuthenticateEvent_other_case_accepted :
    oneWithLetters.db.rows.map (fun r => (r.id, r.auth_code, r.is_authenticated)) =
        [(1, some "ffffffff-ffff-4fff-bfff-ffffffffffff", false)] ∧
      (∀ r ∈ oneWithLetters.db.rows,
        r.id = 1 → r.auth_code ≠ some "FFFFFFFF-FFFF-4FFF-BFFF-FFFFFFFFFFFF") ∧
      (AuthenticateEvent .ok oneWithLetters.db 1 "FFFFFFFF-FFFF-4FFF-BFFF-FFFFFFFFFFFF").1 =
        none ∧
      (AuthenticateEvent .ok oneWithLetters.db 1
          "FFFFFFFF-FFFF-4FFF-BFFF-FFFFFFFFFFFF").2.rows.map
        (fun r => (r.id, r.is_authenticated)) = [(1, true)] := by
  decide

/-- C4 (amended): for every store, every id and every string that the server
does not count equal to the token stored for that id (in particular when no
row has that id), `AuthenticateEvent` returns the not-found error and leaves
the store, with every row and every flag, as it was. -/
theorem AuthenticateEvent_wrong_token (db : DB) (id : Int) (s : String)
    (h : ∀ r ∈ db.rows, r.id = id →
      ∀ stored, r.auth_code = some stored → db.server.sameCode stored s = false) :
    AuthenticateEvent .ok db id s = (some .notFound, db) := by
  have hno : ∀ r ∈ db.rows, matchesAuth db.server id s r = false := by
    intro r hr
    by_cases hid : r.id = id
    · cases hc : r.auth_code with
      | none => simp [matchesAuth, hc]
      | some stored => simp [matchesAuth, hc, h r hr hid stored hc]
    · simp [matchesAuth, hid]
  have h1 : db.rows.filter (matchesAuth db.server id s) = [] :=
    List.filter_eq_nil_iff.mpr (fun r hr => by simp [hno r hr])
  have h2 : (db.rows.filter fun r => matchesAuth db.server id s r && !r.is_authenticated) = [] :=
    List.filter_eq_nil_iff.mpr (fun r hr => by simp [hno r hr])
  have h0 : rowsAffected db id s = 0 := by
    unfold rowsAffected
    rw [h1, h2]
    simp
  simp [AuthenticateEvent, h0, updatedRows_of_rowsAffected_zero db id s h0]

theorem AuthenticateEvent_wrong_token_witness :
    AuthenticateEvent .ok oneWithLetters.db 1 "not-the-token" =
      (some .notFound, oneWithLetters.db) :=
  AuthenticateEvent_wrong_token oneWithLetters.db 1 "not-the-token" (by decide)

/-! ## Insert and roll back -/

/-- C8 (as written, refuted): a request whose start date is no date has every
required field and passes the validation of the handler, and for its
parameters `CreateEventTx`, the driver reporting no failure, returns an error,
no id and no token. -/
theorem CreateEventTx_refuses_bad_date :
    validCreate World.working { testRequest with StartDate := "not-a-date" } = true ∧
      CreateEventTx .ok zeroBytes (DB.empty false) { pending := [], done := false }
          (toParams { testRequest with StartDate := "not-a-date" }) =
        (.error .insertFailed, DB.empty false, { pending := [], done := false }) := by
  exact ⟨by decide, rfl⟩

/-- C8 (amended): for every store and every parameter set, in a fresh
transaction: whenever `CreateEventTx` succeeds, the id is non-zero and the
token non-empty; it does succeed when the driver reports no failure and the
parameters are plain (ASCII texts within the capacity of their columns, dates
written `YYYY-MM-DD`, times written `HH:MM:SS`); it fails when the server
refuses a value; and in every case, after a rollback of that transaction the
committed rows are exactly what they were before `BeginTx`. -/
theorem CreateEventTx_then_rollback (w : Wire) (rnd : Fin 16 → Fin 256) (db : DB)
    (params : CreateEventParams) :
    BeginTx .ok db = .ok { pending := [], done := false } ∧
      (∀ eventID authCode db1 tx1,
        CreateEventTx w rnd db { pending := [], done := false } params =
          (.ok (eventID, authCode), db1, tx1) →
        eventID ≠ 0 ∧ authCode ≠ "") ∧
      (w = .ok → Plain params →
        ∃ eventID authCode db1 tx1,
          CreateEventTx w rnd db { pending := [], done := false } params =
            (.ok (eventID, authCode), db1, tx1)) ∧
      (pendingRow rnd db params = none →
        CreateEventTx w rnd db { pending := [], done := false } params =
          (.error .insertFailed, db, { pending := [], done := false })) ∧
      (∀ res db1 tx1,
        CreateEventTx w rnd db { pending := [], done := false } params = (res, db1, tx1) →
        ∃ db2 tx2, Tx.Rollback db1 tx1 = (true, db2, tx2) ∧
          db2.rows = db.rows ∧ tx2.pending = []) := by
  refine ⟨rfl, ?_, ?_, ?_, ?_⟩
  · intro eventID authCode db1 tx1 h
    obtain ⟨-, hid, hcode, -, -⟩ := CreateEventTx_ok_inv _ _ _ _ _ _ _ _ h
    rw [hid, hcode]
    exact ⟨by exact_mod_cast Nat.succ_ne_zero db.issued, uuidString_ne_empty _⟩
  · intro hw hp
    obtain ⟨row, hrow⟩ := pendingRow_plain rnd db params hp
    rw [hw]
    exact ⟨_, _, _, _, CreateEventTx_ok rnd db [] params row hrow⟩
  · intro hnone
    exact CreateEventTx_refused _ _ _ _ _ hnone
  · intro res db1 tx1 h
    have hframe := CreateEventTx_frame w rnd db { pending := [], done := false } params
    rw [h] at hframe
    obtain ⟨hrows, -, hdone⟩ := hframe
    simp only at hrows hdone
    refine ⟨db1, { tx1 with pending := [], done := true }, ?_, hrows, rfl⟩
    simp [Tx.Rollback, hdone]

theorem testParams_plain : Plain testParams :=
  ⟨⟨by decide, by decide⟩, ⟨by decide, by decide⟩, ⟨_, rfl⟩, ⟨rfl, _, rfl⟩, ⟨_, rfl⟩,
    ⟨rfl, _, rfl⟩, ⟨by decide, by decide⟩, trivial, trivial, trivial, trivial, trivial, trivial,
    trivial, trivial⟩

theorem CreateEventTx_then_rollback_witness :
    (∃ eventID authCode db1 tx1,
      CreateEventTx .ok zeroBytes (DB.empty false) { pending := [], done := false } testParams =
        (.ok (eventID, authCode), db1, tx1)) ∧
      (CreateEventTx .ok zeroBytes (DB.empty false) { pending := [], done := false }
          { testParams with StartDate := "not-a-date" } =
        (.error .insertFailed, DB.empty false, { pending := [], done := false })) :=
  ⟨(CreateEventTx_then_rollback .ok zeroBytes (DB.empty false) testParams).2.2.1 rfl
      testParams_plain,
    (CreateEventTx_then_rollback .ok zeroBytes (DB.empty false)
      { testParams with StartDate := "not-a-date" }).2.2.2.1 rfl⟩

/-! ## The collection columns round-trip -/

theorem decodeElems_map {α : Type} (enc : α → Json) (dec : Json → Option α)
    (h : ∀ a, dec (enc a) = some a) (xs : List α) : decodeElems dec (xs.map enc) = some xs := by
  induction xs with
  | nil => rfl
  | cons a t ih => simp [decodeElems, ih, h]

theorem unmarshalTags_marshalTags (tags : Slice String) :
    unmarshalTags (some (marshalTags tags)) = some tags := by
  cases tags with
  | none => rfl
  | some xs =>
    simp [unmarshalTags, marshalTags, unmarshalSlice,
      decodeElems_map Json.str (decodeString "") (fun _ => rfl)]

theorem decodeSpeaker_marshalSpeaker (s : repository.Speaker) :
    decodeSpeaker (marshalSpeaker s) = some s := by
  have h1 : keyIs "name" "name" = true := by decide
  have h2 : keyIs "title" "name" = false := by decide
  have h3 : keyIs "title" "title" = true := by decide
  have h4 : keyIs "organization" "name" = false := by decide
  have h5 : keyIs "organization" "title" = false := by decide
  have h6 : keyIs "organization" "organization" = true := by decide
  simp [decodeSpeaker, marshalSpeaker, decodeSpeakerMembers, decodeString, h1, h2, h3, h4, h5, h6]

theorem decodeSchedule_marshalSchedule (s : repository.Schedule) :
    decodeSchedule (marshalSchedule s) = some s := by
  have h1 : keyIs "time" "time" = true := by decide
  have h2 : keyIs "title" "time" = false := by decide
  have h3 : keyIs "title" "title" = true := by decide
  have h4 : keyIs "speaker" "time" = false := by decide
  have h5 : keyIs "speaker" "title" = false := by decide
  have h6 : keyIs "speaker" "speaker" = true := by decide
  simp [decodeSchedule, marshalSchedule, decodeScheduleMembers, decodeString, h1, h2, h3, h4, h5,
    h6]

theorem unmarshalSpeakers_marshalSpeakers (speakers : Slice repository.Speaker) :
    unmarshalSpeakers (some (marshalSpeakers speakers)) = some speakers := by
  cases speakers with
  | none => rfl
  | some xs =>
    simp [unmarshalSpeakers, marshalSpeakers, unmarshalSlice,
      decodeElems_map marshalSpeaker decodeSpeaker decodeSpeaker_marshalSpeaker]

theorem unmarshalSchedules_marshalSchedules (schedule : Slice repository.Schedule) :
    unmarshalSchedules (some (marshalSchedules schedule)) = some schedule := by
  cases schedule with
  | none => rfl
  | some xs =>
    simp [unmarshalSchedules, marshalSchedules, unmarshalSlice,
      decodeElems_map marshalSchedule decodeSchedule decodeSchedule_marshalSchedule]

/-- The event decoded from a row written by `CreateEventTx`, whatever its
flag has become: the texts, dates and times as the row holds them, the two
booleans and the three collections as in the parameters. -/
theorem scanEvent_of_holds (sv : Server) (params : CreateEventParams) (row : Row)
    (hh : Holds sv params row) (flag : Bool) :
    scanEvent { row with is_authenticated := flag } =
      .ok { ID := row.id, Title := row.title, Organizer := row.organizer,
            StartDate := row.start_date.text, StartTime := row.start_time.text,
            EndDate := row.end_date.text, EndTime := row.end_time.text, Email := row.email,
            Prefecture := row.prefecture, EventType := row.event_type,
            IsOnline := params.IsOnline, IsOffline := params.IsOffline,
            OfficialURL := row.official_url, OnlineLectureURL := row.online_lecture_url,
            Venue := row.venue, Target := row.target, Capacity := row.capacity,
            Description := row.description, Tags := params.Tags,
            Speakers := params.Speakers, Schedule := params.Schedule, AuthCode := "",
            IsAuthenticated := flag } := by
  simp [scanEvent, hh.tags, hh.speakers, hh.schedule, hh.is_online, hh.is_offline,
    unmarshalTags_marshalTags, unmarshalSpeakers_marshalSpeakers,
    unmarshalSchedules_marshalSchedules]

theorem Holds.text_plain (sv : Server) (capacity : Nat) (s stored : String)
    (h : sv.chars capacity s = some stored) (hp : plainText capacity s) : stored = s := by
  rw [Server.chars_plain sv capacity s hp] at h
  exact (Option.some.inj h).symm

theorem Holds.null_plain (sv : Server) (capacity : Nat) (s stored : Option String)
    (h : sv.charsNull capacity s = some stored) (hp : plainNull capacity s) : stored = s := by
  rw [Server.charsNull_plain sv capacity s hp] at h
  exact (Option.some.inj h).symm

theorem Holds.date_plain (sv : Server) (s : String) (stored : Date)
    (h : sv.date s = some stored) (hp : plainDate s) : stored.text = s := by
  obtain ⟨d, hd⟩ := hp
  rw [Server.date_canonical sv s d hd] at h
  rw [← Option.some.inj h]
  exact Date_text_of_canonical s d hd

theorem Holds.time_plain (sv : Server) (s : String) (stored : Time)
    (h : sv.time s = some stored) (hp : plainTime s) : stored.text = s := by
  obtain ⟨hlen, t, ht⟩ := hp
  rw [Server.time_canonical sv s t ht] at h
  rw [← Option.some.inj h]
  exact (Time_text_of_canonical s t ht).1 hlen

/-- A time written `HH:MM` is held, and comes back, with the seconds. -/
theorem Holds.time_short (sv : Server) (s : String) (stored : Time)
    (h : sv.time s = some stored) (hlen : s.toList.length = 5)
    (hp : ∃ t, canonicalTime s.toList = some t) : stored.text = s ++ ":00" := by
  obtain ⟨t, ht⟩ := hp
  rw [Server.time_canonical sv s t ht] at h
  rw [← Option.some.inj h]
  exact (Time_text_of_canonical s t ht).2 hlen

/-! ## Create, commit, authenticate, read back -/

theorem Server.sameCode_self (sv : Server) (code : String) : sv.sameCode code code = true := by
  simp [Server.sameCode]

theorem matchesAuth_id (sv : Server) (id : Int) (authCode : String) (r : Row)
    (h : matchesAuth sv id authCode r = true) : r.id = id := by
  simp [matchesAuth] at h
  exact h.1

theorem find_none_of_ids (rows : List Row) (id : Int) (h : ∀ r ∈ rows, r.id ≠ id) :
    rows.find? (fun r => r.id == id && r.is_authenticated) = none := by
  apply List.find?_eq_none.mpr
  intro r hr
  simp [h r hr]

theorem updatedRows_of_ids (sv : Server) (rows : List Row) (id : Int) (authCode : String)
    (h : ∀ r ∈ rows, r.id ≠ id) : updatedRows sv id authCode rows = rows := by
  apply map_eq_self
  intro r hr
  have : matchesAuth sv id authCode r = false := by
    by_contra hm
    exact h r hr (matchesAuth_id sv id authCode r (by simpa using hm))
  simp [this]

theorem updatedRows_append (sv : Server) (id : Int) (authCode : String) (l1 l2 : List Row) :
    updatedRows sv id authCode (l1 ++ l2) =
      updatedRows sv id authCode l1 ++ updatedRows sv id authCode l2 := by
  simp [updatedRows]

/-- The round trip for a row that the server has taken: the event is absent
after the commit, the authentication with the returned token succeeds, and
then the event is the scan of that row with the flag set. -/
theorem create_commit_authenticate_get_row (rnd : Fin 16 → Fin 256) (db : DB)
    (params : CreateEventParams) (row : Row) (hwf : ∀ r ∈ db.rows, r.id ≤ (db.issued : Int))
    (hrow : pendingRow rnd db params = some row) :
    ∃ db3,
      Tx.Commit .ok { db with issued := db.issued + 1 } { pending := [row], done := false } =
        (true, { db with rows := db.rows ++ [row], issued := db.issued + 1 },
          { pending := [], done := true }) ∧
      GetEvent .ok { db with rows := db.rows ++ [row], issued := db.issued + 1 }
        ((db.issued : Int) + 1) = .ok none ∧
      AuthenticateEvent .ok { db with rows := db.rows ++ [row], issued := db.issued + 1 }
        ((db.issued : Int) + 1) (uuidString (uuidNew rnd)) = (none, db3) ∧
      GetEvent .ok db3 ((db.issued : Int) + 1) =
        .ok (some { ID := (db.issued : Int) + 1, Title := row.title, Organizer := row.organizer,
                    StartDate := row.start_date.text, StartTime := row.start_time.text,
                    EndDate := row.end_date.text, EndTime := row.end_time.text,
                    Email := row.email, Prefecture := row.prefecture,
                    EventType := row.event_type, IsOnline := params.IsOnline,
                    IsOffline := params.IsOffline, OfficialURL := row.official_url,
                    OnlineLectureURL := row.online_lecture_url, Venue := row.venue,
                    Target := row.target, Capacity := row.capacity,
                    Description := row.description, Tags := params.Tags,
                    Speakers := params.Speakers, Schedule := params.Schedule, AuthCode := "",
                    IsAuthenticated := true }) := by
  obtain ⟨hh, hid, hcode, hflag⟩ := pendingRow_holds rnd db params row hrow
  have hne : ∀ r ∈ db.rows, r.id ≠ ((db.issued : Int) + 1) := by
    intro r hr heq
    have := hwf r hr
    rw [heq] at this
    omega
  have hm : matchesAuth db.server ((db.issued : Int) + 1) (uuidString (uuidNew rnd)) row =
      true := by
    simp [matchesAuth, hid, hcode, Server.sameCode_self]
  refine ⟨{ db with
      rows := updatedRows db.server ((db.issued : Int) + 1) (uuidString (uuidNew rnd))
        (db.rows ++ [row]),
      issued := db.issued + 1 }, rfl, ?_, ?_, ?_⟩
  · have hfind := find_none_of_ids db.rows _ hne
    simp only [GetEvent, List.find?_append, hfind, Option.none_or]
    simp [hflag]
  · have haff : rowsAffected { db with rows := db.rows ++ [row], issued := db.issued + 1 }
        ((db.issued : Int) + 1) (uuidString (uuidNew rnd)) ≠ 0 := by
      unfold rowsAffected
      cases db.clientFoundRows <;> simp [List.filter_append, hm, hflag]
    simp only [AuthenticateEvent, haff, if_false]
  · simp only [GetEvent, updatedRows_append,
      updatedRows_of_ids db.server db.rows _ _ hne, List.find?_append,
      find_none_of_ids db.rows _ hne, Option.none_or]
    simp only [updatedRows, List.map_cons, List.map_nil, hm, if_true, List.find?_cons,
      hid, beq_self_eq_true, Bool.and_self]
    have hscan := scanEvent_of_holds db.server params row hh true
    simp only [hid] at hscan
    rw [hscan]
    rfl

/-- C9 (as written, refuted): the start time `09:00` is stored in a TIME
column, and after create, commit and authenticate `GetEvent` returns the
record with the start time `09:00:00`, which is not the text in the
parameters. -/
theorem create_commit_authenticate_get_time_differs :
    scenarioParams.StartTime = "09:00" ∧
      ∃ ev,
        GetEvent .ok
            (History.run Server.defaults false
              [.create .ok .ok zeroBytes scenarioParams (some .ok),
                .authenticate .ok 1 (uuidString (uuidNew zeroBytes))]).db 1 = .ok (some ev) ∧
          ev.StartTime = "09:00:00" ∧ ev.StartTime ≠ scenarioParams.StartTime := by
  refine ⟨rfl, _, rfl, by decide, by decide⟩

/-- C9 (amended): for every parameter set, on a store whose ids were all
issued by the counter: whenever `CreateEventTx` returns (id, token), the
transaction commits, `GetEvent(id)` is still absent,
`AuthenticateEvent(id, token)` succeeds, and then `GetEvent(id)` returns the
record with that id, the flag set, every text, date and time as its column
holds the value of the parameters, the two booleans as in the parameters, and
tags, speakers and schedule as in the parameters, element for element. When
the parameters are plain (ASCII texts within the capacity of their columns,
dates written `YYYY-MM-DD`, times written `HH:MM:SS`), `CreateEventTx` does
return and every field of the record is as in the parameters. -/
theorem create_commit_authenticate_get (rnd : Fin 16 → Fin 256) (db : DB)
    (params : CreateEventParams) (hwf : ∀ r ∈ db.rows, r.id ≤ (db.issued : Int)) :
    (∀ eventID authCode db1 tx1,
      CreateEventTx .ok rnd db { pending := [], done := false } params =
        (.ok (eventID, authCode), db1, tx1) →
      ∃ row db2 tx2 db3,
        Holds db.server params row ∧
        Tx.Commit .ok db1 tx1 = (true, db2, tx2) ∧
        GetEvent .ok db2 eventID = .ok none ∧
        AuthenticateEvent .ok db2 eventID authCode = (none, db3) ∧
        GetEvent .ok db3 eventID =
          .ok (some { ID := eventID, Title := row.title, Organizer := row.organizer,
                      StartDate := row.start_date.text, StartTime := row.start_time.text,
                      EndDate := row.end_date.text, EndTime := row.end_time.text,
                      Email := row.email, Prefecture := row.prefecture,
                      EventType := row.event_type, IsOnline := params.IsOnline,
                      IsOffline := params.IsOffline, OfficialURL := row.official_url,
                      OnlineLectureURL := row.online_lecture_url, Venue := row.venue,
                      Target := row.target, Capacity := row.capacity,
                      Description := row.description, Tags := params.Tags,
                      Speakers := params.Speakers, Schedule := params.Schedule,
                      AuthCode := "", IsAuthenticated := true })) ∧
    (Plain params →
      ∃ tx eventID authCode db1 tx1 db2 tx2 db3,
        BeginTx .ok db = .ok tx ∧
        CreateEventTx .ok rnd db tx params = (.ok (eventID, authCode), db1, tx1) ∧
        Tx.Commit .ok db1 tx1 = (true, db2, tx2) ∧
        GetEvent .ok db2 eventID = .ok none ∧
        AuthenticateEvent .ok db2 eventID authCode = (none, db3) ∧
        GetEvent .ok db3 eventID =
          .ok (some { ID := eventID, Title := params.Title, Organizer := params.Organizer,
                      StartDate := params.StartDate, StartTime := params.StartTime,
                      EndDate := params.EndDate, EndTime := params.EndTime,
                      Email := params.Email, Prefecture := params.Prefecture,
                      EventType := params.EventType, IsOnline := params.IsOnline,
                      IsOffline := params.IsOffline, OfficialURL := params.OfficialURL,
                      OnlineLectureURL := params.OnlineLectureURL, Venue := params.Venue,
                      Target := params.Target, Capacity := params.Capacity,
                      Description := params.Description, Tags := params.Tags,
                      Speakers := params.Speakers, Schedule := params.Schedule,
                      AuthCode := "", IsAuthenticated := true })) := by
  constructor
  · intro eventID authCode db1 tx1 h
    obtain ⟨-, hid, hcode, hdb1, row, hrow, htx1⟩ := CreateEventTx_ok_inv _ _ _ _ _ _ _ _ h
    obtain ⟨db3, h1, h2, h3, h4⟩ := create_commit_authenticate_get_row rnd db params row hwf hrow
    rw [hid, hcode, hdb1, htx1]
    exact ⟨row, _, _, db3, (pendingRow_holds rnd db params row hrow).1, h1, h2, h3, h4⟩
  · intro hp
    obtain ⟨row, hrow⟩ := pendingRow_plain rnd db params hp
    obtain ⟨db3, h1, h2, h3, h4⟩ := create_commit_authenticate_get_row rnd db params row hwf hrow
    have hh := (pendingRow_holds rnd db params row hrow).1
    rw [Holds.text_plain _ _ _ _ hh.title hp.title,
      Holds.text_plain _ _ _ _ hh.organizer hp.organizer,
      Holds.date_plain _ _ _ hh.start_date hp.start_date,
      Holds.time_plain _ _ _ hh.start_time hp.start_time,
      Holds.date_plain _ _ _ hh.end_date hp.end_date,
      Holds.time_plain _ _ _ hh.end_time hp.end_time,
      Holds.text_plain _ _ _ _ hh.email hp.email,
      Holds.null_plain _ _ _ _ hh.prefecture hp.prefecture,
      Holds.null_plain _ _ _ _ hh.event_type hp.event_type,
      Holds.null_plain _ _ _ _ hh.official_url hp.official_url,
      Holds.null_plain _ _ _ _ hh.online_lecture_url hp.online_lecture_url,
      Holds.null_plain _ _ _ _ hh.venue hp.venue,
      Holds.null_plain _ _ _ _ hh.target hp.target,
      Holds.null_plain _ _ _ _ hh.capacity hp.capacity,
      Holds.null_plain _ _ _ _ hh.description hp.description] at h4
    exact ⟨_, _, _, _, _, _, _, db3, BeginTx_ok db, CreateEventTx_ok rnd db [] params row hrow,
      h1, h2, h3, h4⟩

theorem create_commit_authenticate_get_witness :
    (∀ r ∈ (DB.empty false).rows, r.id ≤ ((DB.empty false).issued : Int)) ∧
    Plain testParams ∧
    ∃ tx eventID authCode db1 tx1 db2 tx2 db3,
      BeginTx .ok (DB.empty false) = .ok tx ∧
      CreateEventTx .ok zeroBytes (DB.empty false) tx testParams =
        (.ok (eventID, authCode), db1, tx1) ∧
      Tx.Commit .ok db1 tx1 = (true, db2, tx2) ∧
      GetEvent .ok db2 eventID = .ok none ∧
      AuthenticateEvent .ok db2 eventID authCode = (none, db3) ∧
      GetEvent .ok db3 eventID =
        .ok (some { ID := eventID, Title := testParams.Title, Organizer := testParams.Organizer,
                    StartDate := testParams.StartDate, StartTime := testParams.StartTime,
                    EndDate := testParams.EndDate, EndTime := testParams.EndTime,
                    Email := testParams.Email, Prefecture := testParams.Prefecture,
                    EventType := testParams.EventType, IsOnline := testParams.IsOnline,
                    IsOffline := testParams.IsOffline, OfficialURL := testParams.OfficialURL,
                    OnlineLectureURL := testParams.OnlineLectureURL, Venue := testParams.Venue,
                    Target := testParams.Target, Capacity := testParams.Capacity,
                    Description := testParams.Description, Tags := testParams.Tags,
                    Speakers := testParams.Speakers, Schedule := testParams.Schedule,
                    AuthCode := "", IsAuthenticated := true }) :=
  ⟨fun _ hr => absurd hr (List.not_mem_nil _), testParams_plain,
    (create_commit_authenticate_get zeroBytes (DB.empty false) testParams
      (fun _ hr => absurd hr (List.not_mem_nil _))).2 testParams_plain⟩

/-! ## Visibility along histories -/

theorem scanEvent_fields (r : Row) (ev : Event) (h : scanEvent r = .ok ev) :
    ev.ID = r.id ∧ ev.StartDate = r.start_date.text ∧ ev.StartTime = r.start_time.text ∧
      ev.IsAuthenticated = r.is_authenticated := by
  unfold scanEvent at h
  split at h
  · cases h
  · split at h
    · cases h
    · split at h
      · cases h
      · cases h
        exact ⟨rfl, rfl, rfl, rfl⟩

theorem mem_updatedRows (sv : Server) (id : Int) (authCode : String) (rows : List Row)
    (r2 : Row) (h : r2 ∈ updatedRows sv id authCode rows) :
    ∃ r ∈ rows,
      (matchesAuth sv id authCode r = true ∧ r2 = { r with is_authenticated := true }) ∨
        (matchesAuth sv id authCode r = false ∧ r2 = r) := by
  unfold updatedRows at h
  rw [List.mem_map] at h
  obtain ⟨r, hr, heq⟩ := h
  refine ⟨r, hr, ?_⟩
  by_cases hm : matchesAuth sv id authCode r = true
  · left; simp only [hm, if_true] at heq; exact ⟨hm, heq.symm⟩
  · right
    simp only [hm] at heq
    exact ⟨by simpa using hm, heq.symm⟩

/-- On a server that compares codes byte for byte, the rows matched by the
UPDATE are those with this id and exactly this code. -/
theorem matchesAuth_binary (sv : Server) (hci : sv.caseInsensitive = false)
    (hother : ∀ a b, sv.otherEqual a b = false) (id : Int) (code : String) (r : Row) :
    matchesAuth sv id code r = true ↔ r.id = id ∧ r.auth_code = some code := by
  unfold matchesAuth
  cases hc : r.auth_code with
  | none => simp
  | some stored => simp [Server.sameCode, hci, hother]

theorem Date_lt_trichotomy (a b : Date) : a.lt b ∨ a = b ∨ b.lt a := by
  cases a
  cases b
  simp only [Date.lt, Date.mk.injEq]
  omega

theorem Date_lt_trans (a b c : Date) (hab : a.lt b) (hbc : b.lt c) : a.lt c := by
  cases a
  cases b
  cases c
  simp only [Date.lt] at *
  omega

theorem keyLE_total (a b : Row) : keyLE a b ∨ keyLE b a := by
  unfold keyLE
  rcases Date_lt_trichotomy a.start_date b.start_date with h | h | h
  · exact Or.inl (Or.inl h)
  · rcases le_total a.start_time.seconds b.start_time.seconds with h2 | h2
    · exact Or.inl (Or.inr ⟨h, h2⟩)
    · exact Or.inr (Or.inr ⟨h.symm, h2⟩)
  · exact Or.inr (Or.inl h)

theorem keyLE_trans (a b c : Row) (hab : keyLE a b) (hbc : keyLE b c) : keyLE a c := by
  unfold keyLE at *
  rcases hab with h1 | ⟨h1, h2⟩
  · rcases hbc with h3 | ⟨h3, -⟩
    · exact Or.inl (Date_lt_trans _ _ _ h1 h3)
    · exact Or.inl (h3 ▸ h1)
  · rcases hbc with h3 | ⟨h3, h4⟩
    · exact Or.inl (h1 ▸ h3)
    · exact Or.inr ⟨h1.trans h3, le_trans h2 h4⟩

theorem selectAuthenticated_sorted (e : Engine) (db : DB) :
    (selectAuthenticated e db).Sorted keyLE :=
  @List.sorted_insertionSort Row keyLE _ ⟨keyLE_total⟩ ⟨keyLE_trans⟩ _

theorem selectAuthenticated_perm (e : Engine) (db : DB) :
    (selectAuthenticated e db).Perm (db.rows.filter fun r => r.is_authenticated) :=
  (List.perm_insertionSort keyLE _).trans (e.scan_perm _)

theorem scanRows_cons_ok (r : Row) (rest : List Row) (evs : List Event)
    (h : scanRows (r :: rest) = .ok evs) :
    ∃ ev evs2, scanEvent r = .ok ev ∧ scanRows rest = .ok evs2 ∧ evs = ev :: evs2 := by
  simp only [scanRows] at h
  cases h1 : scanEvent r with
  | error err => simp [h1] at h
  | ok ev =>
    cases h2 : scanRows rest with
    | error err => simp [h1, h2] at h
    | ok evs2 =>
      simp only [h1, h2, Except.ok.injEq] at h
      exact ⟨ev, evs2, rfl, rfl, h.symm⟩

theorem scanRows_mem (l : List Row) (evs : List Event) (h : scanRows l = .ok evs)
    (ev : Event) (hev : ev ∈ evs) : ∃ r ∈ l, scanEvent r = .ok ev := by
  induction l generalizing evs with
  | nil =>
    simp only [scanRows, Except.ok.injEq] at h
    subst h
    exact absurd hev (List.not_mem_nil _)
  | cons r rest ih =>
    obtain ⟨ev1, evs2, h1, h2, h3⟩ := scanRows_cons_ok r rest evs h
    subst h3
    rcases List.mem_cons.mp hev with heq | hmem
    · subst heq; exact ⟨r, List.mem_cons_self _ _, h1⟩
    · obtain ⟨r2, hr2, hsc⟩ := ih evs2 h2 hmem
      exact ⟨r2, List.mem_cons_of_mem _ hr2, hsc⟩

theorem scanRows_ids (l : List Row) (evs : List Event) (h : scanRows l = .ok evs) :
    evs.map (fun ev => ev.ID) = l.map fun r => r.id := by
  induction l generalizing evs with
  | nil =>
    simp only [scanRows, Except.ok.injEq] at h
    subst h
    rfl
  | cons r rest ih =>
    obtain ⟨ev1, evs2, h1, h2, h3⟩ := scanRows_cons_ok r rest evs h
    subst h3
    simp only [List.map_cons, ih evs2 h2, (scanEvent_fields r ev1 h1).1]

theorem scanRows_total (l : List Row) (hdec : ∀ r ∈ l, ∃ ev, scanEvent r = .ok ev) :
    ∃ evs, scanRows l = .ok evs := by
  induction l with
  | nil => exact ⟨[], rfl⟩
  | cons r rest ih =>
    obtain ⟨ev, hev⟩ := hdec r (List.mem_cons_self _ _)
    obtain ⟨evs, hevs⟩ := ih (fun r2 hr2 => hdec r2 (List.mem_cons_of_mem _ hr2))
    exact ⟨ev :: evs, by simp [scanRows, hev, hevs]⟩

/-- Whatever order the server gives to rows with equal keys, the list
returned by `GetEvents` is the scan of the authenticated rows sorted ascending
by the values of (start date, start time); and `GetEvents` does return a list
whenever every authenticated row decodes. -/
theorem GetEvents_sorted_by_value (e : Engine) (db : DB) :
    (∀ evs, GetEvents e .ok db = .ok evs →
        ∃ rows, rows.Sorted keyLE ∧
          rows.Perm (db.rows.filter fun r => r.is_authenticated) ∧
          scanRows rows = .ok evs ∧
          evs.map (fun ev => ev.ID) = rows.map fun r => r.id) ∧
      ((∀ r ∈ db.rows, r.is_authenticated = true → ∃ ev, scanEvent r = .ok ev) →
        ∃ evs, GetEvents e .ok db = .ok evs) := by
  constructor
  · intro evs h
    simp only [GetEvents] at h
    exact ⟨_, selectAuthenticated_sorted e db, selectAuthenticated_perm e db, h,
      scanRows_ids _ evs h⟩
  · intro hdec
    simp only [GetEvents]
    apply scanRows_total
    intro r hr
    have hmem := (selectAuthenticated_perm e db).mem_iff.mp hr
    rw [List.mem_filter] at hmem
    exact hdec r hmem.1 hmem.2

/-- On a server that reads the table in insertion order and sorts stably, two
authenticated rows with the same start keep the order of their insertion.
Nothing in the query asks the server for this. -/
theorem selectAuthenticated_ties_inOrder (db : DB) (a b : Row)
    (hsub : [a, b].Sublist db.rows) (ha : a.is_authenticated = true)
    (hb : b.is_authenticated = true) (hkey : keyLE a b) :
    [a, b].Sublist (selectAuthenticated Engine.inOrder db) := by
  have hf : [a, b].Sublist (db.rows.filter fun r => r.is_authenticated) := by
    have := hsub.filter (fun r => r.is_authenticated)
    simpa [ha, hb] using this
  exact List.pair_sublist_insertionSort hkey hf

/-! ## Rows without collection values -/

/-- C7 fails on the code at the table of `TestRepository_GetEvents`: Event1 is
authenticated and was inserted without tags, speakers or schedule, so its
three JSON columns are NULL, `json.Unmarshal` of the empty bytes fails, and
`GetEvents` returns the tags error instead of the one authenticated event,
whatever the server does. -/
theorem GetEvents_null_collections_error (e : Engine) :
    GetEvents e .ok getEventsTestDB = .error .tagsUnmarshal := by
  have hfilter : (getEventsTestDB.rows.filter fun r => r.is_authenticated) =
      [bareRow 1 "Event1" "Org1" ⟨2025, 1, 1⟩ ⟨32400⟩ ⟨2025, 1, 1⟩ ⟨36000⟩
        "test1@example.com" true] := rfl
  have hscan := List.perm_singleton.mp (e.scan_perm
    [bareRow 1 "Event1" "Org1" ⟨2025, 1, 1⟩ ⟨32400⟩ ⟨2025, 1, 1⟩ ⟨36000⟩
      "test1@example.com" true])
  simp only [GetEvents, selectAuthenticated, hfilter, hscan, List.insertionSort,
    List.orderedInsert]
  rfl

/-! ## Authenticating twice -/

/-- C5 fails on the code with the driver's default connection: after one event
has been created and committed, the first `AuthenticateEvent` with its id and
token succeeds and the second returns the not-found error, because the UPDATE
then changes no row. -/
theorem AuthenticateEvent_twice_default_driver :
    (AuthenticateEvent .ok oneCreated.db 1 (uuidString (uuidNew zeroBytes))).1 = none ∧
      (AuthenticateEvent .ok
        (AuthenticateEvent .ok oneCreated.db 1 (uuidString (uuidNew zeroBytes))).2 1
        (uuidString (uuidNew zeroBytes))).1 = some .notFound := by
  decide

theorem matchesAuth_setFlag (sv : Server) (id : Int) (authCode : String) (r : Row) :
    matchesAuth sv id authCode { r with is_authenticated := true } =
      matchesAuth sv id authCode r :=
  rfl

/-- The UPDATE is idempotent on the table. -/
theorem updatedRows_idem (sv : Server) (id : Int) (authCode : String) (rows : List Row) :
    updatedRows sv id authCode (updatedRows sv id authCode rows) =
      updatedRows sv id authCode rows := by
  unfold updatedRows
  rw [List.map_map]
  apply List.map_congr_left
  intro r _
  simp only [Function.comp]
  by_cases hm : matchesAuth sv id authCode r = true
  · simp only [hm, if_true, matchesAuth_setFlag]
  · simp only [hm]
    simp only [Bool.false_eq_true, if_false, hm]

/-- Whatever the connection flag, a second `AuthenticateEvent` leaves the
store as the first one left it. -/
theorem AuthenticateEvent_twice_state (db : DB) (id : Int) (authCode : String) :
    (AuthenticateEvent .ok (AuthenticateEvent .ok db id authCode).2 id authCode).2 =
      (AuthenticateEvent .ok db id authCode).2 := by
  have h1 : (AuthenticateEvent .ok db id authCode).2 =
      { db with rows := updatedRows db.server id authCode db.rows } := by
    simp only [AuthenticateEvent]
    split <;> rfl
  have h2 : (AuthenticateEvent .ok
      { db with rows := updatedRows db.server id authCode db.rows } id authCode).2 =
      { db with
        rows := updatedRows db.server id authCode
          (updatedRows db.server id authCode db.rows) } := by
    simp only [AuthenticateEvent]
    split <;> rfl
  rw [h1, h2, updatedRows_idem]

/-- On a connection with `clientFoundRows`, authenticating with the id and
token of a committed row succeeds, and succeeds again. -/
theorem AuthenticateEvent_twice_foundRows (db : DB) (id : Int) (authCode : String)
    (hflag : db.clientFoundRows = true)
    (hrow : ∃ r ∈ db.rows, r.id = id ∧ r.auth_code = some authCode) :
    (AuthenticateEvent .ok db id authCode).1 = none ∧
      (AuthenticateEvent .ok (AuthenticateEvent .ok db id authCode).2 id authCode).1 = none := by
  obtain ⟨r, hr, hid, hcode⟩ := hrow
  have hm : matchesAuth db.server id authCode r = true := by
    simp [matchesAuth, hid, hcode, Server.sameCode_self]
  have h0 : rowsAffected db id authCode ≠ 0 := by
    unfold rowsAffected
    rw [hflag]
    simp only [if_true]
    exact Nat.ne_of_gt (List.length_pos_of_mem (List.mem_filter.mpr ⟨hr, hm⟩))
  have hr2 : { r with is_authenticated := true } ∈
      updatedRows db.server id authCode db.rows := by
    unfold updatedRows
    rw [List.mem_map]
    exact ⟨r, hr, by simp [hm]⟩
  have h1 : rowsAffected { db with rows := updatedRows db.server id authCode db.rows } id
      authCode ≠ 0 := by
    unfold rowsAffected
    simp only [hflag, if_true]
    exact Nat.ne_of_gt (List.length_pos_of_mem (List.mem_filter.mpr ⟨hr2, hm⟩))
  simp [AuthenticateEvent, h0, h1]

/-! ## Every path through `CreateEvent` -/

theorem postToSlack_none (world : World) (msg : String) (sent : List Effect)
    (h : postToSlack world msg = (none, sent)) :
    sent = [.post world.slackWebhookURL (.obj [("text", .str msg)])] ∧
      world.webhook (.obj [("text", .str msg)]) = .status 200 := by
  unfold postToSlack at h
  by_cases h1 : world.slackWebhookURL = ""
  · simp [h1] at h
  · by_cases h2 : world.validURL world.slackWebhookURL = true
    · cases h3 : world.webhook (Json.obj [("text", Json.str msg)]) with
      | transportError => simp [h1, h2, h3] at h
      | status code =>
        by_cases h4 : code = 200
        · simp [h1, h2, h3, h4] at h
          exact ⟨h.symm, by rw [h4]⟩
        · simp [h1, h2, h3, h4] at h
    · simp [h1, h2] at h

theorem postToSlack_some (world : World) (msg : String) (err : String) (sent : List Effect)
    (h : postToSlack world msg = (some err, sent)) (url : String) (body : Json)
    (hmem : Effect.post url body ∈ sent) : world.webhook body ≠ .status 200 := by
  unfold postToSlack at h
  by_cases h1 : world.slackWebhookURL = ""
  · simp [h1] at h
    rw [h.2] at hmem
    exact absurd hmem (List.not_mem_nil _)
  · by_cases h2 : world.validURL world.slackWebhookURL = true
    · cases h3 : world.webhook (Json.obj [("text", Json.str msg)]) with
      | transportError =>
        simp [h1, h2, h3] at h
        rw [← h.2, List.mem_singleton] at hmem
        cases hmem
        rw [h3]
        exact fun hc => by cases hc
      | status code =>
        by_cases h4 : code = 200
        · simp [h1, h2, h3, h4] at h
        · simp [h1, h2, h3, h4] at h
          rw [← h.2, List.mem_singleton] at hmem
          cases hmem
          rw [h3]
          intro hc
          cases hc
          exact h4 rfl
    · simp [h1, h2] at h
      rw [h.2] at hmem
      exact absurd hmem (List.not_mem_nil _)

theorem CreateEvent_unbound (world : World) (db : DB) :
    CreateEvent world db none =
      { result := .httpError 400 "invalid request", db := db, trace := [] } := rfl

theorem CreateEvent_invalid (world : World) (db : DB) (req : CreateEventRequest)
    (hvalid : validCreate world req = false) :
    CreateEvent world db (some req) =
      { result := .httpError 400 "invalid request body", db := db, trace := [] } := by
  simp [CreateEvent, hvalid]

theorem CreateEvent_begin_failed (world : World) (db : DB) (req : CreateEventRequest)
    (hvalid : validCreate world req = true) (hbegin : world.beginWire = .broken) :
    CreateEvent world db (some req) =
      { result := .httpError 500 "failed to begin transaction", db := db,
        trace := [.beginTx] } := by
  simp [CreateEvent, hvalid, hbegin, BeginTx]

theorem CreateEvent_insert_failed (world : World) (db : DB) (req : CreateEventRequest)
    (hvalid : validCreate world req = true) (hbegin : world.beginWire = .ok)
    (hinsert : world.insertWire = .broken) :
    CreateEvent world db (some req) =
      { result := .httpError 500 "failed to create event", db := db,
        trace := [.beginTx, .createEventTx, .rollback true] } := by
  simp [CreateEvent, hvalid, hbegin, hinsert, BeginTx, CreateEventTx, deferredRollback,
    Tx.Rollback]

theorem CreateEvent_insert_refused (world : World) (db : DB) (req : CreateEventRequest)
    (hvalid : validCreate world req = true) (hbegin : world.beginWire = .ok)
    (hrow : pendingRow world.rnd db (toParams req) = none) :
    CreateEvent world db (some req) =
      { result := .httpError 500 "failed to create event", db := db,
        trace := [.beginTx, .createEventTx, .rollback true] } := by
  simp [CreateEvent, hvalid, hbegin, BeginTx, CreateEventTx_refused _ _ _ _ _ hrow,
    deferredRollback, Tx.Rollback]

theorem CreateEvent_slack_failed (world : World) (db : DB) (req : CreateEventRequest)
    (err : String) (sent : List Effect) (row : Row)
    (hvalid : validCreate world req = true) (hbegin : world.beginWire = .ok)
    (hinsert : world.insertWire = .ok)
    (hrow : pendingRow world.rnd db (toParams req) = some row)
    (hslack : postToSlack world (slackMessage world req ((db.issued : Int) + 1)
      (uuidString (uuidNew world.rnd))) = (some err, sent)) :
    CreateEvent world db (some req) =
      { result := .httpError 500 "failed to send Slack notification",
        db := { db with issued := db.issued + 1 },
        trace := [.beginTx, .createEventTx] ++ sent ++ [.rollback true] } := by
  simp [CreateEvent, hvalid, hbegin, hinsert, BeginTx, CreateEventTx_ok _ _ _ _ _ hrow, hslack,
    deferredRollback, Tx.Rollback]

theorem CreateEvent_commit_failed (world : World) (db : DB) (req : CreateEventRequest)
    (sent : List Effect) (row : Row)
    (hvalid : validCreate world req = true) (hbegin : world.beginWire = .ok)
    (hinsert : world.insertWire = .ok)
    (hrow : pendingRow world.rnd db (toParams req) = some row)
    (hslack : postToSlack world (slackMessage world req ((db.issued : Int) + 1)
      (uuidString (uuidNew world.rnd))) = (none, sent))
    (hcommit : world.commitWire = .broken) :
    CreateEvent world db (some req) =
      { result := .httpError 500 "failed to commit transaction",
        db := { db with issued := db.issued + 1 },
        trace := [.beginTx, .createEventTx] ++ sent ++ [.commit] ++ [.rollback false] } := by
  simp [CreateEvent, hvalid, hbegin, hinsert, BeginTx, CreateEventTx_ok _ _ _ _ _ hrow, hslack,
    hcommit, Tx.Commit, deferredRollback, Tx.Rollback]

theorem CreateEvent_committed (world : World) (db : DB) (req : CreateEventRequest)
    (sent : List Effect) (row : Row)
    (hvalid : validCreate world req = true) (hbegin : world.beginWire = .ok)
    (hinsert : world.insertWire = .ok)
    (hrow : pendingRow world.rnd db (toParams req) = some row)
    (hslack : postToSlack world (slackMessage world req ((db.issued : Int) + 1)
      (uuidString (uuidNew world.rnd))) = (none, sent))
    (hcommit : world.commitWire = .ok) :
    CreateEvent world db (some req) =
      { result := .json 200 { ID := toString ((db.issued : Int) + 1) },
        db := { db with
          rows := db.rows ++ [row]
          issued := db.issued + 1 },
        trace := [.beginTx, .createEventTx] ++ sent ++ [.commit] ++ [.rollback false] } := by
  simp [CreateEvent, hvalid, hbegin, hinsert, BeginTx, CreateEventTx_ok _ _ _ _ _ hrow, hslack,
    hcommit, Tx.Commit, deferredRollback, Tx.Rollback, Sprintf_d]

/-! ## Record and notification -/

/-- C10, as stated, fails: when the notification has gone through and the
commit then fails, the handler returns with a delivered notification and no
committed record. -/
theorem CreateEvent_delivered_without_record :
    Delivered World.commitDown (CreateEvent World.commitDown (DB.empty false) (some testRequest)) ∧
      ¬ Committed (DB.empty false)
        (CreateEvent World.commitDown (DB.empty false) (some testRequest)) ∧
      (CreateEvent World.commitDown (DB.empty false) (some testRequest)).result =
        .httpError 500 "failed to commit transaction" :=
  ⟨⟨"https://hooks.example.com/services/T",
      .obj [("text", .str (slackMessage World.commitDown testRequest 1
        (uuidString (uuidNew zeroBytes))))],
      List.Mem.tail _ (List.Mem.tail _ (List.Mem.head _)), rfl⟩,
    fun h => h rfl, rfl⟩

/-- C10, amended: for every creation attempt made through `CreateEvent`,
whatever step fails: a record is committed only if its notification was
delivered, and a delivered notification is left without a committed record
only when `Commit` itself has failed, in which case the handler returns the
commit failure. So the outcomes are: record and notification, neither, or a
notification without a record after a failed commit. -/
theorem CreateEvent_record_and_notification (world : World) (db : DB)
    (bound : Option CreateEventRequest) :
    (Committed db (CreateEvent world db bound) → Delivered world (CreateEvent world db bound)) ∧
      (Delivered world (CreateEvent world db bound) →
        ¬ Committed db (CreateEvent world db bound) →
        world.commitWire = .broken ∧
          (CreateEvent world db bound).result =
            .httpError 500 "failed to commit transaction") := by
  have hnone : ∀ (out : Outcome CreateEventResponse),
      out.db.rows = db.rows → (∀ url body, Effect.post url body ∉ out.trace) →
      (Committed db out → Delivered world out) ∧
        (Delivered world out → ¬ Committed db out →
          world.commitWire = .broken ∧
            out.result = .httpError 500 "failed to commit transaction") := by
    intro out hrows htrace
    refine ⟨fun hc => absurd hrows hc, ?_⟩
    rintro ⟨url, body, hmem, -⟩
    exact absurd hmem (htrace url body)
  cases bound with
  | none =>
    rw [CreateEvent_unbound]
    exact hnone _ rfl (fun _ _ hm => absurd hm (List.not_mem_nil _))
  | some req =>
    cases hvalid : validCreate world req with
    | false =>
      rw [CreateEvent_invalid world db req hvalid]
      exact hnone _ rfl (fun _ _ hm => absurd hm (List.not_mem_nil _))
    | true =>
      cases hbegin : world.beginWire with
      | broken =>
        rw [CreateEvent_begin_failed world db req hvalid hbegin]
        exact hnone _ rfl (fun _ _ hm => by simp at hm)
      | ok =>
        cases hinsert : world.insertWire with
        | broken =>
          rw [CreateEvent_insert_failed world db req hvalid hbegin hinsert]
          exact hnone _ rfl (fun _ _ hm => by simp at hm)
        | ok =>
          cases hrow : pendingRow world.rnd db (toParams req) with
          | none =>
            rw [CreateEvent_insert_refused world db req hvalid hbegin hrow]
            exact hnone _ rfl (fun _ _ hm => by simp at hm)
          | some row =>
            cases hslack : postToSlack world (slackMessage world req ((db.issued : Int) + 1)
                (uuidString (uuidNew world.rnd))) with
            | mk err sent =>
              cases err with
              | some err =>
                rw [CreateEvent_slack_failed world db req err sent row hvalid hbegin hinsert
                  hrow hslack]
                refine ⟨fun hc => absurd rfl hc, ?_⟩
                rintro ⟨url, body, hmem, hreply⟩
                exfalso
                simp only [List.mem_append, List.mem_cons, List.mem_singleton,
                  List.not_mem_nil, or_false, reduceCtorEq, false_or] at hmem
                exact postToSlack_some world _ err sent hslack url body hmem hreply
              | none =>
                obtain ⟨hsent, hreply⟩ := postToSlack_none world _ sent hslack
                have hdel : ∀ (out : Outcome CreateEventResponse),
                    out.trace = [.beginTx, .createEventTx] ++ sent ++ [.commit] ++
                      [.rollback false] → Delivered world out := by
                  intro out ht
                  refine ⟨world.slackWebhookURL, _, ?_, hreply⟩
                  rw [ht, hsent]
                  simp
                cases hcommit : world.commitWire with
                | broken =>
                  rw [CreateEvent_commit_failed world db req sent row hvalid hbegin hinsert
                    hrow hslack hcommit]
                  exact ⟨fun _ => hdel _ rfl, fun _ _ => ⟨rfl, rfl⟩⟩
                | ok =>
                  rw [CreateEvent_committed world db req sent row hvalid hbegin hinsert hrow
                    hslack hcommit]
                  refine ⟨fun _ => hdel _ rfl, fun _ hnc => ?_⟩
                  exfalso
                  apply hnc
                  unfold Committed
                  simp

theorem CreateEvent_record_and_notification_witness :
    Committed (DB.empty false) (CreateEvent World.working (DB.empty false) (some testRequest)) ∧
      Delivered World.working (CreateEvent World.working (DB.empty false) (some testRequest)) :=
  ⟨(fun h => List.noConfusion h),
    (CreateEvent_record_and_notification World.working (DB.empty false) (some testRequest)).1
      (fun h => List.noConfusion h)⟩

/-! ## The notification text -/

theorem sprintfChars_literal (pre : List Char) (hpre : '%' ∉ pre) (v : Char) (rest : List Char)
    (args : List FmtArg) :
    sprintfChars (pre ++ '%' :: v :: rest) args = pre ++ sprintfChars ('%' :: v :: rest) args := by
  induction pre with
  | nil => rfl
  | cons c t ih =>
    have hc : c ≠ '%' := fun h => hpre (h ▸ List.mem_cons_self _ _)
    have ht : '%' ∉ t := fun h => hpre (List.mem_cons_of_mem _ h)
    cases t with
    | nil => simp [sprintfChars, hc]
    | cons d t2 =>
      have := ih ht
      simp only [List.cons_append] at this ⊢
      simp only [sprintfChars, hc, if_false, this]

theorem authLink_eq (world : World) (eventID : Int) (authCode : String)
    (hbase : '%' ∉ world.coreBackendURL.toList) :
    authLink world eventID authCode =
      world.coreBackendURL ++ "/api/v1/event/update/" ++ toString eventID ++ "?auth_code=" ++
        authCode := by
  have hlit : "/api/v1/event/update/%d?auth_code=%s".toList =
      "/api/v1/event/update/".toList ++ '%' :: 'd' :: ("?auth_code=".toList ++ ['%', 's']) := by
    decide
  have hA : '%' ∉ world.coreBackendURL.toList ++ "/api/v1/event/update/".toList := by
    intro h
    rcases List.mem_append.mp h with h | h
    · exact hbase h
    · revert h; decide
  have hB : '%' ∉ "?auth_code=".toList := by decide
  have hfmt : (world.coreBackendURL ++ "/api/v1/event/update/%d?auth_code=%s").toList =
      (world.coreBackendURL.toList ++ "/api/v1/event/update/".toList) ++
        '%' :: 'd' :: ("?auth_code=".toList ++ ['%', 's']) := by
    rw [String.toList, String.data_append, ← String.toList, ← String.toList, hlit,
      List.append_assoc]
  unfold authLink Sprintf
  rw [hfmt, sprintfChars_literal _ hA]
  have h1 : sprintfChars ('%' :: 'd' :: ("?auth_code=".toList ++ ['%', 's']))
      [.int eventID, .str authCode] =
      (toString eventID).toList ++ sprintfChars ("?auth_code=".toList ++ ['%', 's'])
        [.str authCode] := by
    simp [sprintfChars, fmtVerb]
  rw [h1, sprintfChars_literal _ hB]
  have h2 : sprintfChars ['%', 's'] [.str authCode] = authCode.toList := by
    simp [sprintfChars, fmtVerb, fmtExtra]
  rw [h2]
  apply String.ext
  simp [String.data_append]

theorem slackMessage_eq (world : World) (req : CreateEventRequest) (eventID : Int)
    (authCode : String) :
    slackMessage world req eventID authCode =
      "新しいイベントが作成されました。\nタイトル: " ++ req.Title ++ "\nオーガナイザー: " ++ req.Organizer ++
        "\n認証リンク: " ++ authLink world eventID authCode := by
  have hfmt : "新しいイベントが作成されました。\nタイトル: %s\nオーガナイザー: %s\n認証リンク: %s".toList =
      "新しいイベントが作成されました。\nタイトル: ".toList ++ '%' :: 's' ::
        ("\nオーガナイザー: ".toList ++ '%' :: 's' :: ("\n認証リンク: ".toList ++ ['%', 's'])) := by
    decide
  have h0 : '%' ∉ "新しいイベントが作成されました。\nタイトル: ".toList := by decide
  have h1 : '%' ∉ "\nオーガナイザー: ".toList := by decide
  have h2 : '%' ∉ "\n認証リンク: ".toList := by decide
  have hs : ∀ (s : String) (rest : List Char) (args : List FmtArg),
      sprintfChars ('%' :: 's' :: rest) (.str s :: args) = s.toList ++ sprintfChars rest args := by
    intro s rest args
    simp [sprintfChars, fmtVerb]
  unfold slackMessage Sprintf
  rw [hfmt, sprintfChars_literal _ h0, hs, sprintfChars_literal _ h1, hs,
    sprintfChars_literal _ h2, hs]
  apply String.ext
  simp [String.data_append, sprintfChars, fmtExtra]

theorem postToSlack_sent_eq (world : World) (msg : String) (x : Effect)
    (hx : x ∈ (postToSlack world msg).2) :
    x = .post world.slackWebhookURL (.obj [("text", .str msg)]) := by
  unfold postToSlack at hx
  by_cases h1 : world.slackWebhookURL = ""
  · simp [h1] at hx
  · by_cases h2 : world.validURL world.slackWebhookURL = true
    · cases h3 : world.webhook (Json.obj [("text", Json.str msg)]) with
      | transportError => simp [h1, h2, h3] at hx; exact hx
      | status code =>
        by_cases h4 : code = 200 <;> (simp [h1, h2, h3, h4] at hx; exact hx)
    · simp [h1, h2] at hx

theorem postToSlack_issued (world : World) (msg : String) (h1 : world.slackWebhookURL ≠ "")
    (h2 : world.validURL world.slackWebhookURL = true) :
    (postToSlack world msg).2 = [.post world.slackWebhookURL (.obj [("text", .str msg)])] := by
  unfold postToSlack
  cases h3 : world.webhook (Json.obj [("text", Json.str msg)]) with
  | transportError => simp [h1, h2, h3]
  | status code => by_cases h4 : code = 200 <;> simp [h1, h2, h3, h4]

theorem BeginTx_ok_inv (w : Wire) (db : DB) (tx : Tx) (h : BeginTx w db = .ok tx) : w = .ok := by
  cases w with
  | broken => simp [BeginTx] at h
  | ok => rfl

/-- After a successful insert, the trace of `CreateEvent` is the two store
calls, then what `postToSlack` issued for this attempt's message, then what
followed. -/
theorem CreateEvent_trace_after_insert (world : World) (db : DB) (req : CreateEventRequest)
    (row : Row) (hvalid : validCreate world req = true) (hbegin : world.beginWire = .ok)
    (hinsert : world.insertWire = .ok)
    (hrow : pendingRow world.rnd db (toParams req) = some row) :
    ∃ tail, (CreateEvent world db (some req)).trace =
      [.beginTx, .createEventTx] ++
        (postToSlack world (slackMessage world req ((db.issued : Int) + 1)
          (uuidString (uuidNew world.rnd)))).2 ++ tail ∧
      ∀ url body, Effect.post url body ∉ tail := by
  cases hslack : postToSlack world (slackMessage world req ((db.issued : Int) + 1)
      (uuidString (uuidNew world.rnd))) with
  | mk err sent =>
    cases err with
    | some err =>
      rw [CreateEvent_slack_failed world db req err sent row hvalid hbegin hinsert hrow hslack]
      exact ⟨[.rollback true], rfl, by simp⟩
    | none =>
      cases hcommit : world.commitWire with
      | broken =>
        rw [CreateEvent_commit_failed world db req sent row hvalid hbegin hinsert hrow hslack
          hcommit]
        exact ⟨[.commit, .rollback false], by simp, by simp⟩
      | ok =>
        rw [CreateEvent_committed world db req sent row hvalid hbegin hinsert hrow hslack hcommit]
        exact ⟨[.commit, .rollback false], by simp, by simp⟩

set_option maxRecDepth 100000 in
/-- C11, as stated, fails: with base URL `https://example.com`, id 1 and the
token of this attempt, the text posted to the webhook carries the link
`https://example.com/api/v1/event/update/1?auth_code=...`; the base URL
followed by `/event/update/1?auth_code=...` occurs nowhere in it. -/
theorem CreateEvent_link_has_api_path :
    (CreateEvent World.working (DB.empty false) (some testRequest)).trace =
      [.beginTx, .createEventTx,
        .post "https://hooks.example.com/services/T"
          (.obj [("text", .str "新しいイベントが作成されました。\nタイトル: Test Event\nオーガナイザー: Test Org\n認証リンク: https://example.com/api/v1/event/update/1?auth_code=00000000-0000-4000-8000-000000000000")]),
        .commit, .rollback false] ∧
      ¬ ("https://example.com/event/update/1?auth_code=00000000-0000-4000-8000-000000000000".toList
          <:+: (slackMessage World.working testRequest 1
            "00000000-0000-4000-8000-000000000000").toList) :=
  ⟨rfl, by decide⟩

/-- C11, amended: for every title, organizer, id and token, when the
configured base URL holds no `%`: the message that `CreateEvent` composes for
the gateway is the fixed text with the title, the organizer and the link, the
link being exactly the base URL followed by
`/api/v1/event/update/<id>?auth_code=<token>` with the id in decimal and the
token as returned by `CreateEventTx` for this attempt; every request the
handler issues to the webhook carries this message, and one is issued
whenever the webhook URL is set and accepted. -/
theorem CreateEvent_notification_text (world : World) (db : DB) (req : CreateEventRequest)
    (tx : Tx) (eventID : Int) (authCode : String) (db1 : DB) (tx1 : Tx)
    (hbase : '%' ∉ world.coreBackendURL.toList)
    (hvalid : validCreate world req = true)
    (hbegin : BeginTx world.beginWire db = .ok tx)
    (hcreate : CreateEventTx world.insertWire world.rnd db tx (toParams req) =
      (.ok (eventID, authCode), db1, tx1)) :
    slackMessage world req eventID authCode =
        "新しいイベントが作成されました。\nタイトル: " ++ req.Title ++ "\nオーガナイザー: " ++ req.Organizer ++
          "\n認証リンク: " ++ (world.coreBackendURL ++ "/api/v1/event/update/" ++ toString eventID ++
            "?auth_code=" ++ authCode) ∧
      (∀ url body, Effect.post url body ∈ (CreateEvent world db (some req)).trace →
        url = world.slackWebhookURL ∧
          body = .obj [("text", .str (slackMessage world req eventID authCode))]) ∧
      (world.slackWebhookURL ≠ "" → world.validURL world.slackWebhookURL = true →
        Effect.post world.slackWebhookURL
            (.obj [("text", .str (slackMessage world req eventID authCode))]) ∈
          (CreateEvent world db (some req)).trace) := by
  have htx := BeginTx_open _ _ _ hbegin
  have hb := BeginTx_ok_inv _ _ _ hbegin
  rw [htx] at hcreate
  obtain ⟨hi, hid, hcode, -, row, hrow, -⟩ := CreateEventTx_ok_inv _ _ _ _ _ _ _ _ hcreate
  obtain ⟨tail, htrace, htail⟩ :=
    CreateEvent_trace_after_insert world db req row hvalid hb hi hrow
  rw [← hid, ← hcode] at htrace
  refine ⟨?_, ?_, ?_⟩
  · rw [slackMessage_eq, authLink_eq world eventID authCode hbase]
  · intro url body hmem
    rw [htrace] at hmem
    simp only [List.mem_append, List.mem_cons, List.mem_singleton, List.not_mem_nil, or_false,
      reduceCtorEq, false_or] at hmem
    rcases hmem with hmem | hmem
    · have := postToSlack_sent_eq world _ _ hmem
      simp only [Effect.post.injEq] at this
      exact this
    · exact absurd hmem (htail url body)
  · intro h1 h2
    rw [htrace, postToSlack_issued world _ h1 h2]
    simp

theorem CreateEvent_notification_text_witness :
    slackMessage World.working testRequest 1 (uuidString (uuidNew zeroBytes)) =
        "新しいイベントが作成されました。\nタイトル: " ++ testRequest.Title ++ "\nオーガナイザー: " ++
          testRequest.Organizer ++
          "\n認証リンク: " ++ (World.working.coreBackendURL ++ "/api/v1/event/update/" ++
            toString (1 : Int) ++ "?auth_code=" ++ uuidString (uuidNew zeroBytes)) ∧
      (∀ url body,
        Effect.post url body ∈
          (CreateEvent World.working (DB.empty false) (some testRequest)).trace →
        url = World.working.slackWebhookURL ∧
          body = .obj [("text", .str (slackMessage World.working testRequest 1
            (uuidString (uuidNew zeroBytes))))]) ∧
      (World.working.slackWebhookURL ≠ "" →
        World.working.validURL World.working.slackWebhookURL = true →
        Effect.post World.working.slackWebhookURL
            (.obj [("text", .str (slackMessage World.working testRequest 1
              (uuidString (uuidNew zeroBytes))))]) ∈
          (CreateEvent World.working (DB.empty false) (some testRequest)).trace) :=
  CreateEvent_notification_text World.working (DB.empty false) testRequest
    { pending := [], done := false } 1 (uuidString (uuidNew zeroBytes))
    _ _
    (by decide) (by decide) rfl rfl

/-- The base URL is part of the format string: a `%d` in it takes the id, and
the verbs written for the id and the token are left with the wrong operand or
none. -/
theorem authLink_verb_in_base :
    authLink { World.working with coreBackendURL := "https://example.com/%d" } 1 "tok" =
      "https://example.com/1/api/v1/event/update/%!d(string=tok)?auth_code=%!s(MISSING)" := by
  decide

/-! ## The notification gateway -/

/-- C12: for every message, `postToSlack` returns an error when the webhook
URL is empty, and then issues no request; when the transport call fails; and
when the channel answers with a status outside 200..299. It returns nil only
when a request was issued and the channel answered with success (status
200). -/
theorem postToSlack_error_cases (world : World) (msg : String) :
    (world.slackWebhookURL = "" →
        (postToSlack world msg).1 ≠ none ∧ (postToSlack world msg).2 = []) ∧
      (world.webhook (.obj [("text", .str msg)]) = .transportError →
        (postToSlack world msg).1 ≠ none) ∧
      (∀ code, world.webhook (.obj [("text", .str msg)]) = .status code →
        ¬ (200 ≤ code ∧ code < 300) → (postToSlack world msg).1 ≠ none) ∧
      ((postToSlack world msg).1 = none →
        (postToSlack world msg).2 =
            [.post world.slackWebhookURL (.obj [("text", .str msg)])] ∧
          ∃ code, world.webhook (.obj [("text", .str msg)]) = .status code ∧
            200 ≤ code ∧ code < 300) := by
  have hnone : (postToSlack world msg).1 = none →
      (postToSlack world msg).2 = [.post world.slackWebhookURL (.obj [("text", .str msg)])] ∧
        world.webhook (.obj [("text", .str msg)]) = .status 200 := by
    intro h
    exact postToSlack_none world msg _ (Prod.ext h rfl)
  refine ⟨?_, ?_, ?_, ?_⟩
  · intro hurl
    simp [postToSlack, hurl]
  · intro ht h
    rw [(hnone h).2] at ht
    cases ht
  · intro code hc hnot h
    rw [(hnone h).2] at hc
    cases hc
    exact hnot ⟨le_refl _, by decide⟩
  · intro h
    exact ⟨(hnone h).1, 200, (hnone h).2, le_refl _, by decide⟩

theorem postToSlack_error_cases_witness :
    (postToSlack World.slackDown "hello").1 ≠ none ∧
      (postToSlack World.working "hello").2 =
        [.post World.working.slackWebhookURL (.obj [("text", .str "hello")])] :=
  ⟨(postToSlack_error_cases World.slackDown "hello").2.2.1 500 rfl (by decide),
    ((postToSlack_error_cases World.working "hello").2.2.2 rfl).1⟩

/-! ## The frame of authentication -/

/-- C13: for every store and every (id, token), the store after
`AuthenticateEvent(id, token)` has the same rows in the same order, each
either untouched or, if it matches both id and token, with its flag set and
every other field (id and token included) as before; no flag that was set is
cleared; the counter, the connection and the server are untouched; and once
the UPDATE has run every row with this id and this token has its flag set.
The match is the one the server makes for `auth_code = ?`; on a server that
compares byte for byte it is equality with the token of the row. -/
theorem AuthenticateEvent_frame (w : Wire) (db : DB) (id : Int) (authCode : String) :
    (AuthenticateEvent w db id authCode).2.issued = db.issued ∧
      (AuthenticateEvent w db id authCode).2.clientFoundRows = db.clientFoundRows ∧
      List.Forall₂
        (fun r r2 =>
          (r2 = r ∨ (r.id = id ∧ matchesAuth db.server id authCode r = true ∧
            r2 = { r with is_authenticated := true })) ∧
          (r.is_authenticated = true → r2.is_authenticated = true))
        db.rows (AuthenticateEvent w db id authCode).2.rows ∧
      (w = .ok → ∀ r2 ∈ (AuthenticateEvent w db id authCode).2.rows,
        r2.id = id → r2.auth_code = some authCode → r2.is_authenticated = true) ∧
      (AuthenticateEvent w db id authCode).2.server = db.server ∧
      (db.server.caseInsensitive = false → (∀ a b, db.server.otherEqual a b = false) →
        List.Forall₂
          (fun r r2 =>
            (r2 = r ∨ (r.id = id ∧ r.auth_code = some authCode ∧
              r2 = { r with is_authenticated := true })) ∧
            (r.is_authenticated = true → r2.is_authenticated = true))
          db.rows (AuthenticateEvent w db id authCode).2.rows) := by
  cases w with
  | broken =>
    refine ⟨rfl, rfl, ?_, (fun h => Wire.noConfusion h), rfl, fun _ _ => ?_⟩
    · exact List.forall₂_same.mpr (fun r _ => ⟨Or.inl rfl, fun h => h⟩)
    · exact List.forall₂_same.mpr (fun r _ => ⟨Or.inl rfl, fun h => h⟩)
  | ok =>
    have hdb : (AuthenticateEvent .ok db id authCode).2 =
        { db with rows := updatedRows db.server id authCode db.rows } := by
      simp only [AuthenticateEvent]
      split <;> rfl
    rw [hdb]
    refine ⟨rfl, rfl, ?_, ?_, rfl, ?_⟩
    · show List.Forall₂ _ db.rows (updatedRows db.server id authCode db.rows)
      unfold updatedRows
      rw [List.forall₂_map_right_iff, List.forall₂_same]
      intro r _
      by_cases hm : matchesAuth db.server id authCode r = true
      · rw [if_pos hm]
        exact ⟨Or.inr ⟨matchesAuth_id _ _ _ _ hm, hm, rfl⟩, fun _ => rfl⟩
      · rw [if_neg hm]
        exact ⟨Or.inl rfl, fun h => h⟩
    · intro _ r2 hr2 hid hcode
      obtain ⟨r, -, hcase⟩ := mem_updatedRows _ id authCode db.rows r2 hr2
      rcases hcase with ⟨-, h2⟩ | ⟨hm, h2⟩
      · rw [h2]
      · exfalso
        rw [h2] at hid hcode
        have : matchesAuth db.server id authCode r = true := by
          simp [matchesAuth, hid, hcode, Server.sameCode_self]
        rw [hm] at this
        cases this
    · intro hci hother
      show List.Forall₂ _ db.rows (updatedRows db.server id authCode db.rows)
      unfold updatedRows
      rw [List.forall₂_map_right_iff, List.forall₂_same]
      intro r _
      by_cases hm : matchesAuth db.server id authCode r = true
      · rw [if_pos hm]
        have hb := (matchesAuth_binary db.server hci hother id authCode r).mp hm
        exact ⟨Or.inr ⟨hb.1, hb.2, rfl⟩, fun _ => rfl⟩
      · rw [if_neg hm]
        exact ⟨Or.inl rfl, fun h => h⟩

theorem AuthenticateEvent_frame_witness :
    ∀ r2 ∈ (AuthenticateEvent .ok oneCreated.db 1 (uuidString (uuidNew zeroBytes))).2.rows,
      r2.id = 1 → r2.auth_code = some (uuidString (uuidNew zeroBytes)) →
        r2.is_authenticated = true :=
  (AuthenticateEvent_frame .ok oneCreated.db 1 (uuidString (uuidNew zeroBytes))).2.2.2.1 rfl

/-! ## Failures before the notification -/

/-- C14: for every valid request: if `BeginTx` fails, `CreateEvent` returns
HTTP 500 having made no other call (no insert, no notification, no commit, no
rollback); if `BeginTx` succeeds and `CreateEventTx` fails, it returns HTTP
500 having sent no notification and made no commit, and the transaction is
rolled back. The committed store is untouched in both cases. -/
theorem CreateEvent_store_failures (world : World) (db : DB) (req : CreateEventRequest)
    (hvalid : validCreate world req = true) :
    (∀ e, BeginTx world.beginWire db = .error e →
        CreateEvent world db (some req) =
          { result := .httpError 500 "failed to begin transaction", db := db,
            trace := [.beginTx] }) ∧
      (∀ tx e db1 tx1, BeginTx world.beginWire db = .ok tx →
        CreateEventTx world.insertWire world.rnd db tx (toParams req) = (.error e, db1, tx1) →
        CreateEvent world db (some req) =
          { result := .httpError 500 "failed to create event", db := db,
            trace := [.beginTx, .createEventTx, .rollback true] }) := by
  constructor
  · intro e hbegin
    cases hb : world.beginWire with
    | ok => rw [hb] at hbegin; simp [BeginTx] at hbegin
    | broken => exact CreateEvent_begin_failed world db req hvalid hb
  · intro tx e db1 tx1 hbegin hcreate
    have hb := BeginTx_ok_inv _ _ _ hbegin
    rw [BeginTx_open _ _ _ hbegin] at hcreate
    cases hi : world.insertWire with
    | ok =>
      cases hrow : pendingRow world.rnd db (toParams req) with
      | none => exact CreateEvent_insert_refused world db req hvalid hb hrow
      | some row => rw [hi, CreateEventTx_ok _ _ _ _ _ hrow] at hcreate; simp at hcreate
    | broken => exact CreateEvent_insert_failed world db req hvalid hb hi

theorem CreateEvent_store_failures_witness :
    CreateEvent { World.working with beginWire := .broken } (DB.empty false) (some testRequest) =
        { result := .httpError 500 "failed to begin transaction", db := DB.empty false,
          trace := [.beginTx] } ∧
      CreateEvent { World.working with insertWire := .broken } (DB.empty false)
          (some testRequest) =
        { result := .httpError 500 "failed to create event", db := DB.empty false,
          trace := [.beginTx, .createEventTx, .rollback true] } :=
  ⟨(CreateEvent_store_failures { World.working with beginWire := .broken } (DB.empty false)
      testRequest (by decide)).1 .beginFailed rfl,
    (CreateEvent_store_failures { World.working with insertWire := .broken } (DB.empty false)
      testRequest (by decide)).2 { pending := [], done := false } .insertFailed
      (DB.empty false) { pending := [], done := false } rfl rfl⟩

/-! ## Validation -/

/-- C15: for every request in which one of title, organizer, start date,
start time, end date, end time or email is empty, `CreateEvent` returns HTTP
400 and makes no call at all (no `BeginTx`, no `CreateEventTx`, no
notification, no `Commit`), so the store is as it was. -/
theorem CreateEvent_missing_field (world : World) (db : DB) (req : CreateEventRequest)
    (h : req.Title = "" ∨ req.Organizer = "" ∨ req.StartDate = "" ∨ req.StartTime = "" ∨
      req.EndDate = "" ∨ req.EndTime = "" ∨ req.Email = "") :
    CreateEvent world db (some req) =
      { result := .httpError 400 "invalid request body", db := db, trace := [] } := by
  apply CreateEvent_invalid
  unfold validCreate
  rcases h with h | h | h | h | h | h | h <;> simp [h]

theorem CreateEvent_missing_field_witness :
    CreateEvent World.working (DB.empty false) (some { testRequest with Email := "" }) =
      { result := .httpError 400 "invalid request body", db := DB.empty false, trace := [] } :=
  CreateEvent_missing_field World.working (DB.empty false) { testRequest with Email := "" }
    (Or.inr (Or.inr (Or.inr (Or.inr (Or.inr (Or.inr rfl))))))

/-! ## The authentication and lookup handlers -/

/-- C16: for every path id and auth_code: `UpdateEvent` answers 200 with the
confirmation message iff the id parses as an integer and `AuthenticateEvent`
with it and the auth_code returns nil; an id that does not parse gives HTTP
400 with no call to the store; a failing `AuthenticateEvent` gives HTTP 400;
and the `GetEvent` handler turns an absent result into HTTP 404. -/
theorem UpdateEvent_GetEvent_status (w : Wire) (db : DB) (idParam authCode : String) :
    ((UpdateEvent w db idParam authCode).result =
          .json 200 { Message := "Event authenticated successfully" } ↔
        ∃ id, Atoi idParam = some id ∧ (AuthenticateEvent w db id authCode).1 = none) ∧
      (Atoi idParam = none →
        UpdateEvent w db idParam authCode =
          { result := .httpError 400 "invalid event ID", db := db, trace := [] }) ∧
      (∀ id e, Atoi idParam = some id → (AuthenticateEvent w db id authCode).1 = some e →
        (UpdateEvent w db idParam authCode).result = .httpError 400 "authentication failed") ∧
      (∀ id, Atoi idParam = some id → GetEvent w db id = .ok none →
        (handler.GetEvent w db idParam).result = .httpError 404 "event not found") := by
  refine ⟨⟨?_, ?_⟩, ?_, ?_, ?_⟩
  · intro h
    cases ha : Atoi idParam with
    | none => simp [UpdateEvent, ha] at h
    | some id =>
      refine ⟨id, rfl, ?_⟩
      cases hr : AuthenticateEvent w db id authCode with
      | mk err db1 =>
        cases err with
        | none => rfl
        | some e => simp [UpdateEvent, ha, hr] at h
  · rintro ⟨id, ha, hauth⟩
    cases hr : AuthenticateEvent w db id authCode with
    | mk err db1 =>
      rw [hr] at hauth
      simp only at hauth
      subst hauth
      simp [UpdateEvent, ha, hr]
  · intro ha
    simp [UpdateEvent, ha]
  · intro id e ha hauth
    cases hr : AuthenticateEvent w db id authCode with
    | mk err db1 =>
      rw [hr] at hauth
      simp only at hauth
      subst hauth
      simp [UpdateEvent, ha, hr]
  · intro id ha hget
    simp [handler.GetEvent, ha, hget]

theorem UpdateEvent_GetEvent_status_witness :
    (UpdateEvent .ok oneCreated.db "1" (uuidString (uuidNew zeroBytes))).result =
        .json 200 { Message := "Event authenticated successfully" } ∧
      UpdateEvent .ok oneCreated.db "one" (uuidString (uuidNew zeroBytes)) =
        { result := .httpError 400 "invalid event ID", db := oneCreated.db, trace := [] } ∧
      (UpdateEvent .ok oneCreated.db "1" "not-the-token").result =
        .httpError 400 "authentication failed" ∧
      (handler.GetEvent .ok oneCreated.db "1").result = .httpError 404 "event not found" :=
  ⟨(UpdateEvent_GetEvent_status .ok oneCreated.db "1" (uuidString (uuidNew zeroBytes))).1.mpr
      ⟨1, by decide, by decide⟩,
    (UpdateEvent_GetEvent_status .ok oneCreated.db "one"
      (uuidString (uuidNew zeroBytes))).2.1 (by decide),
    (UpdateEvent_GetEvent_status .ok oneCreated.db "1" "not-the-token").2.2.1 1 .notFound
      (by decide) (by decide),
    (UpdateEvent_GetEvent_status .ok oneCreated.db "1" "x").2.2.2 1 (by decide) rfl⟩

end Mathday
